import Mathlib

/-!
A verification development for the simulation core of the canvas-based
"jump between platforms" arcade game in `src/pages/index/index.ts`.

The page object's mutable fields are collected into a `GameState` record and
every handler of the page (`resetWorld`, `generateNextPlatform`, `startGame`,
`restartGame`, `onTouchStart`, `onTouchEnd`, `update`, `checkLanding`,
`recenterWorld`, `endGame`) is embedded as a state transformer.  JavaScript
numbers are modelled as elements of a linear ordered field (instantiated at
`ℝ` for the official semantics); `Math.round` becomes `⌊x + 1/2⌋`;
`Math.hypot` is a parameter of the launch handler, instantiated with
`Real.sqrt (x^2 + y^2)`.  An array access `platforms[i]` yields an `Option`:
dereferencing a missing element (a JavaScript `TypeError` on
`undefined.position`) makes the whole handler return `none`.  The calls to
`Math.random` inside `generateNextPlatform` are supplied as oracle draws
constrained to the exact ranges `randInt` produces.
-/

namespace Jump

variable {K : Type} [LinearOrderedField K] [FloorRing K]

/-- A pair of numbers, as the `Vector2` interface of the source. -/
structure Vec2 (K : Type) where
  x : K
  y : K
  deriving Repr, DecidableEq

/-- A platform record: `{id, position (center), size (width, height), color}`. -/
structure Platform (K : Type) where
  id : ℕ
  position : Vec2 K
  size : Vec2 K
  color : String
  deriving Repr, DecidableEq

/-- The player record of the page object. -/
structure Player (K : Type) where
  position : Vec2 K
  velocity : Vec2 K
  radius : K
  color : String
  onGround : Bool
  deriving Repr, DecidableEq

/-- The mutable fields of the page object that the simulation core touches:
the `data` record (`gameStarted`, `gameOver`, `showOverlay`, `score`), the
game objects, the input bookkeeping and the cached viewport size. -/
structure GameState (K : Type) where
  gameStarted : Bool
  gameOver : Bool
  showOverlay : Bool
  score : ℕ
  canvasWidth : K
  canvasHeight : K
  player : Player K
  platforms : List (Platform K)
  currentPlatformId : ℕ
  targetPlatformId : ℕ
  pressStartTime : K
  isPressing : Bool
  deriving Repr, DecidableEq

/-- JavaScript `Math.round` (round half toward positive infinity). -/
def jsRound (x : K) : K := (⌊x + 1/2⌋ : ℤ)

/-- JavaScript `Math.round` as an integer, for the `randInt` bounds. -/
def jsRoundZ (x : K) : ℤ := ⌊x + 1/2⌋

/-- `const clamp = (v, lo, hi) => Math.max(lo, Math.min(hi, v))`. -/
def clamp (v lo hi : K) : K := max lo (min hi v)

/-- `this.gravity = 2000` (px/s^2). -/
def gravity (K : Type) [LinearOrderedField K] : K := 2000

/-- `this.chargeFactor = 4.2` (velocity per second of press). -/
def chargeFactor (K : Type) [LinearOrderedField K] : K := 4.2

/-- `this.horizontalFactor = 0.6` (horizontal share of power). -/
def horizontalFactor (K : Type) [LinearOrderedField K] : K := 0.6

/-- The fixed platform palette of `generateNextPlatform`. -/
def palette : List String := ["#4ecca3", "#f95959", "#3f72af", "#ffd460"]

/-- The outcomes of the `Math.random` calls consumed by one invocation of
`generateNextPlatform`: the magnitude drawn by `randInt(minDx, maxDx)`, the
coin `Math.random() > 0.5` for the sign, the width from
`randInt(minW, maxW)`, the vertical offset from
`randInt(-yVariance, yVariance)` and the palette index from `randInt(0, 3)`. -/
structure GenDraws where
  dxMag : ℤ
  dxPos : Bool
  width : ℤ
  dy : ℤ
  colorIdx : Fin 4
  deriving Repr, DecidableEq

/-- The draws lie in the inclusive ranges that `randInt` produces for a
viewport of the given size. -/
def GenDraws.valid (d : GenDraws) (W H : K) : Prop :=
  jsRoundZ (W * 0.22) ≤ d.dxMag ∧ d.dxMag ≤ jsRoundZ (W * 0.45) ∧
  jsRoundZ (W * 0.16) ≤ d.width ∧ d.width ≤ jsRoundZ (W * 0.28) ∧
  -jsRoundZ (H * 0.06) ≤ d.dy ∧ d.dy ≤ jsRoundZ (H * 0.06)

/-- `generateNextPlatform(prev)` with the random draws made explicit. -/
def generateNextPlatform (d : GenDraws) (W H : K) (prev : Platform K) :
    Platform K :=
  let dx : K := (d.dxMag : K) * (if d.dxPos then 1 else -1)
  let width : K := (d.width : K)
  let height : K := max 12 (jsRound (width * 0.28))
  let x := clamp (prev.position.x + dx) (jsRound (W * 0.18)) (jsRound (W * 0.82))
  let y := clamp (prev.position.y + (d.dy : K)) (jsRound (H * 0.35)) (jsRound (H * 0.8))
  { id := prev.id + 1
    position := ⟨x, y⟩
    size := ⟨width, height⟩
    color := palette.get d.colorIdx }

/-- The first platform pushed by `resetWorld`. -/
def initialPlatform (W H : K) : Platform K :=
  { id := 0
    position := ⟨jsRound (W * 0.3), jsRound (H * 0.7)⟩
    size := ⟨jsRound (W * 0.22), jsRound (W * 0.06)⟩
    color := "#4ecca3" }

/-- `resetWorld()`.  Note that it touches neither `isPressing` nor
`pressStartTime` nor the `gameStarted`/`gameOver` flags. -/
def resetWorld (d : GenDraws) (s : GameState K) : GameState K :=
  let r := jsRound (s.canvasWidth / 20)
  let p0 := initialPlatform s.canvasWidth s.canvasHeight
  let p1 := generateNextPlatform d s.canvasWidth s.canvasHeight p0
  { s with
    platforms := [p0, p1]
    currentPlatformId := 0
    targetPlatformId := 1
    score := 0
    player := { s.player with
      position := ⟨p0.position.x, p0.position.y - r - 6⟩
      velocity := ⟨0, 0⟩
      radius := r
      onGround := true } }

/-- The page object's fields as initialized in its declaration, with the
viewport size recorded by `initCanvas`. -/
def pageInit (W H : K) : GameState K :=
  { gameStarted := false
    gameOver := false
    showOverlay := true
    score := 0
    canvasWidth := W
    canvasHeight := H
    player := { position := ⟨0, 0⟩, velocity := ⟨0, 0⟩, radius := 18,
                color := "#ffdd57", onGround := false }
    platforms := []
    currentPlatformId := 0
    targetPlatformId := 0
    pressStartTime := 0
    isPressing := false }

/-- The state after `initCanvas` runs `resetWorld` and starts the render
loop. -/
def initState (W H : K) (d : GenDraws) : GameState K :=
  resetWorld d (pageInit W H)

/-- `startGame()`: guarded by the `gameStarted` flag. -/
def startGame (d : GenDraws) (s : GameState K) : GameState K :=
  if s.gameStarted then s
  else resetWorld d
    { s with gameStarted := true, gameOver := false, showOverlay := false }

/-- `restartGame()`. -/
def restartGame (d : GenDraws) (s : GameState K) : GameState K :=
  resetWorld d { s with gameOver := false, showOverlay := false }

/-- `onTouchStart()`: records the press unless the session is inactive. -/
def onTouchStart (now : K) (s : GameState K) : GameState K :=
  if !s.gameStarted || s.gameOver then s
  else { s with isPressing := true, pressStartTime := now }

/-- `onTouchEnd()`, parameterized by the `Math.hypot` function.  The platform
lookups `this.platforms[this.currentPlatformId]` and
`this.platforms[this.targetPlatformId]` index the array; dereferencing a
missing entry faults (`none`). -/
def onTouchEnd (hyp : K → K → K) (now : K) (s : GameState K) :
    Option (GameState K) :=
  if !s.gameStarted || s.gameOver then some s
  else if !s.isPressing then some s
  else
    let dtMs := now - s.pressStartTime
    let power := min (dtMs / 1000) 1.2 * chargeFactor K * s.canvasWidth
    match s.platforms[s.currentPlatformId]?, s.platforms[s.targetPlatformId]? with
    | some current, some target =>
      let dirX := target.position.x - current.position.x
      let dirY := target.position.y - current.position.y
      let len := max 1 (hyp dirX dirY)
      let nx := dirX / len
      let ny := dirY / len
      some { s with
        isPressing := false
        player := { s.player with
          onGround := false
          velocity := ⟨nx * power * horizontalFactor K,
                       ny * power * 0.4 - power * 0.8⟩ } }
    | _, _ => none

/-- `checkLanding(platform)` as a predicate on the player and the platform. -/
def checkLanding (p : Player K) (pf : Platform K) : Prop :=
  let px := p.position.x
  let py := p.position.y + p.radius
  let left := pf.position.x - pf.size.x / 2
  let right := pf.position.x + pf.size.x / 2
  let top := pf.position.y - pf.size.y / 2 - 2
  let bottom := pf.position.y + pf.size.y / 2 + 4
  (left ≤ px ∧ px ≤ right) ∧ (top ≤ py ∧ py ≤ bottom ∧ 0 ≤ p.velocity.y)

instance (p : Player K) (pf : Platform K) : Decidable (checkLanding p pf) := by
  unfold checkLanding; infer_instance

/-- `endGame()`. -/
def endGame (s : GameState K) : GameState K :=
  { s with gameOver := true, showOverlay := true, gameStarted := true }

/-- `recenterWorld()`: translates the world so the current platform sits at
`0.3 * canvasWidth`, then trims the platform array to its last 6 entries once
it holds more than 8.  Reading `this.platforms[this.currentPlatformId]`
faults when the entry is missing. -/
def recenterWorld (s : GameState K) : Option (GameState K) :=
  match s.platforms[s.currentPlatformId]? with
  | none => none
  | some current =>
    let desiredX := jsRound (s.canvasWidth * 0.3)
    let dx := desiredX - current.position.x
    if dx = 0 then some s
    else
      let platforms1 := s.platforms.map fun p =>
        { p with position := ⟨p.position.x + dx, p.position.y⟩ }
      let player1 := { s.player with
        position := ⟨s.player.position.x + dx, s.player.position.y⟩ }
      if 8 < platforms1.length then
        let platforms2 := platforms1.drop (platforms1.length - 6)
        match platforms2[0]? with
        | none => none
        | some first =>
          some { s with
            platforms := platforms2
            player := player1
            currentPlatformId := first.id
            targetPlatformId := first.id + 1 }
      else some { s with platforms := platforms1, player := player1 }

/-- The Euler step of `update`: `velocity.y += gravity * dt`, then
`position += velocity * dt` with the updated velocity. -/
def integrate (dt : K) (p : Player K) : Player K :=
  let v1 : Vec2 K := ⟨p.velocity.x, p.velocity.y + gravity K * dt⟩
  { p with
    velocity := v1
    position := ⟨p.position.x + v1.x * dt, p.position.y + v1.y * dt⟩ }

/-- One frame `update(dt)`.  Physics runs only while the player is airborne;
a successful landing pushes a generated platform (draws `d`) and runs
`recenterWorld`; afterwards the fall check may call `endGame`.  The target
lookup `this.platforms[this.targetPlatformId]` is dereferenced by
`checkLanding`, so a missing entry faults. -/
def update (d : GenDraws) (dt : K) (s : GameState K) : Option (GameState K) :=
  if s.player.onGround then some s
  else
    let player1 := integrate dt s.player
    let s1 := { s with player := player1 }
    let afterLanding : Option (GameState K) :=
      match s1.platforms[s1.targetPlatformId]? with
      | none => none
      | some target =>
        if checkLanding player1 target then
          recenterWorld
            { s1 with
              player := { player1 with onGround := true, velocity := ⟨0, 0⟩ }
              currentPlatformId := target.id
              targetPlatformId := target.id + 1
              platforms := s1.platforms ++
                [generateNextPlatform d s.canvasWidth s.canvasHeight target]
              score := s1.score + 1 }
        else some s1
    afterLanding.bind fun s2 =>
      some (if s2.canvasHeight + 80 < s2.player.position.y - s2.player.radius
            then endGame s2 else s2)

end Jump

namespace Jump

/-- `Math.hypot(x, y)` over the reals. -/
noncomputable def realHyp (a b : ℝ) : ℝ := Real.sqrt (a ^ 2 + b ^ 2)

/-- One externally triggered operation of the page: a `startGame` or
`restartGame` tap, a touch event, or one frame callback.  The random draws
consumed by a step are constrained to the ranges `randInt` produces, and a
frame's `dt` is constrained as the render loop clamps it
(`Math.min(0.033, ...)` of a nonnegative elapsed time). -/
inductive Step : GameState ℝ → GameState ℝ → Prop
  | start (s : GameState ℝ) (d : GenDraws)
      (hd : d.valid s.canvasWidth s.canvasHeight) : Step s (startGame d s)
  | restart (s : GameState ℝ) (d : GenDraws)
      (hd : d.valid s.canvasWidth s.canvasHeight) : Step s (restartGame d s)
  | touchStart (s : GameState ℝ) (now : ℝ) : Step s (onTouchStart now s)
  | touchEnd (s s' : GameState ℝ) (now : ℝ)
      (h : onTouchEnd realHyp now s = some s') : Step s s'
  | tick (s s' : GameState ℝ) (d : GenDraws) (dt : ℝ)
      (hd : d.valid s.canvasWidth s.canvasHeight)
      (hdt0 : 0 ≤ dt) (hdt1 : dt ≤ 0.033)
      (h : update d dt s = some s') : Step s s'

/-- Reachability by completed operations. -/
def Reachable : GameState ℝ → GameState ℝ → Prop :=
  Relation.ReflTransGen Step

/-! ### Specification-side definitions

These follow the wording of the specification (sections 4.3 and 4.5), to be
compared with the embedded source functions. -/

/-- Modelled from the spec's launch contract: `power` saturates at 1.2
seconds of press, the direction is the vector from the current platform's
position to the target's divided by `max(1, Euclidean length)`, and the
velocity combines the directional components with a fixed upward impulse. -/
noncomputable def specLaunch (pressDurationMs : ℝ) (current target : Platform ℝ)
    (viewportWidth : ℝ) : Vec2 ℝ :=
  let power := min (pressDurationMs / 1000) 1.2 * chargeFactor ℝ * viewportWidth
  let dx := target.position.x - current.position.x
  let dy := target.position.y - current.position.y
  let len := max 1 (Real.sqrt (dx ^ 2 + dy ^ 2))
  ⟨dx / len * power * horizontalFactor ℝ,
   dy / len * power * 0.4 - power * 0.8⟩

/-- Modelled from the spec's landing contract: the player's center x lies
within the platform's horizontal extent, the bottom point lies within the
padded vertical band, and the vertical velocity is nonnegative. -/
def specGrounded (p : Player ℝ) (t : Platform ℝ) : Prop :=
  (t.position.x - t.size.x / 2 ≤ p.position.x ∧
   p.position.x ≤ t.position.x + t.size.x / 2) ∧
  (t.position.y - t.size.y / 2 - 2 ≤ p.position.y + p.radius ∧
   p.position.y + p.radius ≤ t.position.y + t.size.y / 2 + 4 ∧
   0 ≤ p.velocity.y)

/-- Modelled from the spec's miss contract: the player's top point has
fallen more than 80 units below the viewport. -/
def specFell (p : Player ℝ) (viewportHeight : ℝ) : Prop :=
  viewportHeight + 80 < p.position.y - p.radius

/-- The platform-window invariant of reachable states: the stored platforms
carry consecutive ids `a, a+1, ..., a+n-1`, the target id is one past the
current id, and either the window has never been trimmed (ids start at 0 and
the current platform is the second-to-last entry) or it was trimmed to 6
entries re-anchored at the oldest retained id. -/
def PlatformInv {K : Type} (s : GameState K) : Prop :=
  ∃ a n : ℕ, 2 ≤ n ∧ s.platforms.map Platform.id = List.range' a n ∧
    s.targetPlatformId = s.currentPlatformId + 1 ∧
    ((a = 0 ∧ s.currentPlatformId + 2 = n) ∨
     (n = 6 ∧ s.currentPlatformId = a ∧ 3 ≤ a))

/-! ### Concrete data for counterexamples and witnesses -/

/-- Draws used throughout the concrete traces on a 20 by 20 viewport:
`dx = +4` (the minimum), width 3, no vertical offset, palette entry 0. -/
def d0 : GenDraws := ⟨4, true, 3, 0, 0⟩

/-- Generated platforms of the traces: center `(x, 14)`, size `3` by `12`. -/
def mkP (i : ℕ) (x : ℝ) : Platform ℝ := ⟨i, ⟨x, 14⟩, ⟨3, 12⟩, "#4ecca3"⟩

/-- The initial platform (id 0) of the traces at a given x. -/
def p0x (x : ℝ) : Platform ℝ := ⟨0, ⟨x, 14⟩, ⟨4, 1⟩, "#4ecca3"⟩

/-- A running session on the 20 by 20 viewport whose player stands at
`(x, y)` on the platform stored at index `i`, aiming at the platform of id
`i + 1` at `x = 10`.  `L` holds the older platforms. -/
def jstate (L : List (Platform ℝ)) (i : ℕ) (cp : Platform ℝ)
    (x y pt : ℝ) (sc : ℕ) : GameState ℝ :=
  { gameStarted := true, gameOver := false, showOverlay := false, score := sc,
    canvasWidth := 20, canvasHeight := 20,
    player := ⟨⟨x, y⟩, ⟨0, 0⟩, 1, "#ffdd57", true⟩,
    platforms := L ++ [cp, mkP (i + 1) 10],
    currentPlatformId := i, targetPlatformId := i + 1,
    pressStartTime := pt, isPressing := false }

/-- The same session with the player airborne at `(x, y)` with velocity
`(vx, vy)`. -/
def astate (L : List (Platform ℝ)) (i : ℕ) (cp : Platform ℝ)
    (x y vx vy pt : ℝ) (sc : ℕ) : GameState ℝ :=
  { gameStarted := true, gameOver := false, showOverlay := false, score := sc,
    canvasWidth := 20, canvasHeight := 20,
    player := ⟨⟨x, y⟩, ⟨vx, vy⟩, 1, "#ffdd57", false⟩,
    platforms := L ++ [cp, mkP (i + 1) 10],
    currentPlatformId := i, targetPlatformId := i + 1,
    pressStartTime := pt, isPressing := false }

/-- The free-fall trace state: the player hovers at `x = 6` (over no
platform) with vertical velocity `vy`, the world freshly reset. -/
def tstate (y vy : ℝ) (press : Bool) (pt : ℝ) : GameState ℝ :=
  { gameStarted := true, gameOver := false, showOverlay := false, score := 0,
    canvasWidth := 20, canvasHeight := 20,
    player := ⟨⟨6, y⟩, ⟨0, vy⟩, 1, "#ffdd57", false⟩,
    platforms := [p0x 6, mkP 1 10],
    currentPlatformId := 0, targetPlatformId := 1,
    pressStartTime := pt, isPressing := press }

/-- The free-fall trace state after the fall has been detected. -/
def tstateOver (y vy : ℝ) : GameState ℝ :=
  { tstate y vy true 2000 with gameOver := true, showOverlay := true }

/-- The post-eviction session of the crash trace: platforms hold ids 3 to 8
but `currentPlatformId = 3` and `targetPlatformId = 4` address the array by
index, so they denote the platforms of ids 6 and 7. -/
def evState : GameState ℝ :=
  { gameStarted := true, gameOver := false, showOverlay := false, score := 7,
    canvasWidth := 20, canvasHeight := 20,
    player := ⟨⟨5.94176, 15.48232⟩, ⟨0, 0⟩, 1, "#ffdd57", true⟩,
    platforms := [mkP 3 (-10), mkP 4 (-6), mkP 5 (-2), mkP 6 2, mkP 7 6,
      mkP 8 10],
    currentPlatformId := 3, targetPlatformId := 4,
    pressStartTime := 70000, isPressing := false }

/-- The crash trace state right after the post-eviction press is released:
the player has been launched off the platform of id 7 toward the platform
the id-confused lookup designates. -/
def evLaunched : GameState ℝ :=
  { evState with
    player := ⟨⟨5.94176, 15.48232⟩, ⟨5.04, -6.72⟩, 1, "#ffdd57", false⟩,
    pressStartTime := 80000, isPressing := false }


/-- Valid draws for a 400 by 800 viewport: dx magnitude at the minimum
(`randInt(88, 180)` returning 88) with positive sign. -/
def d5 : GenDraws := ⟨88, true, 64, 0, 0⟩

/-- A previous platform sitting at the right edge of the playable band of a
400-wide viewport (x = 328 = clamp upper bound). -/
def prev5 : Platform ℝ := ⟨5, ⟨328, 400⟩, ⟨88, 25⟩, "#4ecca3"⟩

end Jump

namespace Jump

/-! ### Elementary facts about `jsRound` and `clamp` -/

theorem jsRound_le {K : Type} [LinearOrderedField K] [FloorRing K] (x : K) :
    jsRound x ≤ x + 1/2 := by
  unfold jsRound
  exact_mod_cast Int.floor_le (x + 1/2)

theorem lt_jsRound {K : Type} [LinearOrderedField K] [FloorRing K] (x : K) :
    x - 1/2 < jsRound x := by
  unfold jsRound
  have h := Int.lt_floor_add_one (x + 1/2)
  push_cast at h
  linarith

theorem jsRound_mono {K : Type} [LinearOrderedField K] [FloorRing K]
    {x y : K} (h : x ≤ y) : jsRound x ≤ jsRound y := by
  unfold jsRound
  exact_mod_cast Int.floor_le_floor (by linarith)

theorem jsRoundZ_cast {K : Type} [LinearOrderedField K] [FloorRing K] (x : K) :
    ((jsRoundZ x : ℤ) : K) = jsRound x := rfl

theorem jsRoundZ_nonneg {K : Type} [LinearOrderedField K] [FloorRing K]
    {x : K} (h : 0 ≤ x) : 0 ≤ jsRoundZ x := by
  unfold jsRoundZ
  positivity

theorem clamp_le_of_mem {K : Type} [LinearOrderedField K] {v lo hi : K}
    (hlo : lo ≤ v) (hhi : v ≤ hi) : clamp v lo hi = v := by
  unfold clamp
  rw [min_eq_right hhi, max_eq_right hlo]

theorem jsRound_eq {K : Type} [LinearOrderedField K] [FloorRing K]
    (x : K) (n : ℤ) (h1 : (n : K) ≤ x + 1/2) (h2 : x + 1/2 < (n : K) + 1) :
    jsRound x = (n : K) := by
  unfold jsRound
  have : ⌊x + 1/2⌋ = n := by
    rw [Int.floor_eq_iff]
    · exact ⟨h1, by exact_mod_cast h2⟩
  exact_mod_cast congrArg (fun z : ℤ => (z : K)) this

theorem jsRoundZ_eq {K : Type} [LinearOrderedField K] [FloorRing K]
    (x : K) (n : ℤ) (h1 : (n : K) ≤ x + 1/2) (h2 : x + 1/2 < (n : K) + 1) :
    jsRoundZ x = n := by
  unfold jsRoundZ
  rw [Int.floor_eq_iff]
  · exact ⟨h1, by exact_mod_cast h2⟩

/-- C10: within the generator's band, a landing and the fall condition are
mutually exclusive: the core inequality.  The platform's height is bounded
as the generator (left disjunct) or `resetWorld` (right disjunct) produces
it, the platform's center lies in the generator's vertical band, and the
player's radius is the one `resetWorld` assigns. -/
theorem checkLanding_excludes_fall (W H : ℝ) (p : Player ℝ) (t : Platform ℝ)
    (hW : 0 < W) (hH : 0 < H)
    (hr : p.radius = jsRound (W / 20))
    (hh : t.size.y ≤ max 12 (jsRound (jsRound (W * 0.28) * 0.28)) ∨
          t.size.y = jsRound (W * 0.06))
    (hy : t.position.y ≤ jsRound (H * 0.8))
    (hland : checkLanding p t) : ¬ specFell p H := by
  simp only [checkLanding] at hland
  obtain ⟨⟨hx1, hx2⟩, hty, hby, hvy⟩ := hland
  intro hfell
  simp only [specFell] at hfell
  have hr1 : W / 20 - 1/2 < p.radius := by rw [hr]; exact lt_jsRound _
  have hcy : t.position.y ≤ H * 0.8 + 1/2 := le_trans hy (jsRound_le _)
  rcases hh with hh | hh
  · have h1 : jsRound (W * 0.28) ≤ W * 0.28 + 1/2 := jsRound_le _
    have h2 : jsRound (jsRound (W * 0.28) * 0.28) ≤ jsRound (W * 0.28) * 0.28 + 1/2 :=
      jsRound_le _
    have h4 : jsRound (jsRound (W * 0.28) * 0.28) ≤ (W * 0.28 + 1/2) * 0.28 + 1/2 := by
      nlinarith
    have h3 : t.size.y ≤ 12 + ((W * 0.28 + 1/2) * 0.28 + 1/2) :=
      le_trans hh (max_le (by nlinarith) (by nlinarith))
    linarith
  · have h3 : t.size.y ≤ W * 0.06 + 1/2 := by rw [hh]; exact jsRound_le _
    linarith

/-! ### The generator's horizontal placement (C5) -/

theorem generate_x_eq_clamp {K : Type} [LinearOrderedField K] [FloorRing K]
    (d : GenDraws) (W H : K) (prev : Platform K) :
    (generateNextPlatform d W H prev).position.x =
      clamp (prev.position.x + (d.dxMag : K) * (if d.dxPos then 1 else -1))
        (jsRound (W * 0.18)) (jsRound (W * 0.82)) := rfl

theorem dxMag_cast_bounds {K : Type} [LinearOrderedField K] [FloorRing K]
    {d : GenDraws} {W H : K} (hW : 0 < W) (hd : d.valid W H) :
    jsRound (W * 0.22) ≤ (d.dxMag : K) ∧ (d.dxMag : K) ≤ jsRound (W * 0.45) ∧
      0 ≤ (d.dxMag : K) := by
  obtain ⟨hd1, hd2, -, -, -, -⟩ := hd
  have hlo : jsRound (W * 0.22) ≤ (d.dxMag : K) := by
    rw [← jsRoundZ_cast]; exact_mod_cast hd1
  have hhi : (d.dxMag : K) ≤ jsRound (W * 0.45) := by
    rw [← jsRoundZ_cast]; exact_mod_cast hd2
  have h0 : (0 : ℤ) ≤ jsRoundZ (W * 0.22) := by
    unfold jsRoundZ
    rw [Int.le_floor]
    push_cast
    nlinarith
  refine ⟨hlo, hhi, ?_⟩
  have : (0 : K) ≤ jsRound (W * 0.22) := by
    rw [← jsRoundZ_cast]; exact_mod_cast h0
  linarith

/-- The signed offset drawn by the generator has absolute value `dxMag`. -/
theorem abs_signed_dx {K : Type} [LinearOrderedField K] [FloorRing K]
    (d : GenDraws) (h0 : (0 : K) ≤ (d.dxMag : K)) :
    |(d.dxMag : K) * (if d.dxPos then 1 else -1)| = (d.dxMag : K) := by
  rcases d.dxPos with _ | _ <;> simp [abs_of_nonneg, h0]

/-- Amended C5: for a previous platform inside the playable band, the
generated platform's horizontal distance never exceeds `maxDx`, and it lies
in `[minDx, maxDx]` exactly when the unclamped position `prev.x + dx`
already lies inside the band; clamping at the band edges can shrink the
distance below `minDx` (see the counterexample). -/
theorem generate_dx_bounds (W H : ℝ) (d : GenDraws) (prev : Platform ℝ)
    (hW : 0 < W) (hd : d.valid W H)
    (hlo : jsRound (W * 0.18) ≤ prev.position.x)
    (hhi : prev.position.x ≤ jsRound (W * 0.82)) :
    |(generateNextPlatform d W H prev).position.x - prev.position.x| ≤
        jsRound (W * 0.45) ∧
    ((jsRound (W * 0.18) ≤
        prev.position.x + (d.dxMag : ℝ) * (if d.dxPos then 1 else -1)) →
     (prev.position.x + (d.dxMag : ℝ) * (if d.dxPos then 1 else -1) ≤
        jsRound (W * 0.82)) →
     jsRound (W * 0.22) ≤
        |(generateNextPlatform d W H prev).position.x - prev.position.x| ∧
     |(generateNextPlatform d W H prev).position.x - prev.position.x| ≤
        jsRound (W * 0.45)) := by
  obtain ⟨hmlo, hmhi, hm0⟩ := dxMag_cast_bounds hW hd
  set x := prev.position.x with hx
  set dxv := (d.dxMag : ℝ) * (if d.dxPos then 1 else -1) with hdxv
  have habs : |dxv| = (d.dxMag : ℝ) := abs_signed_dx d hm0
  have habs1 : dxv ≤ (d.dxMag : ℝ) := le_trans (le_abs_self _) (le_of_eq habs)
  have habs2 : -(d.dxMag : ℝ) ≤ dxv := by
    have := neg_abs_le dxv; rw [habs] at this; exact this
  rw [generate_x_eq_clamp]
  unfold clamp
  constructor
  · rcases le_total (x + dxv) (jsRound (W * 0.82)) with h | h
    · rw [min_eq_right h]
      rcases le_total (jsRound (W * 0.18)) (x + dxv) with h2 | h2
      · rw [max_eq_right h2]
        rw [abs_le]
        constructor <;> [linarith [abs_le.mp (le_of_eq habs) ]; linarith]
      · rw [max_eq_left h2]
        rw [abs_le]
        constructor <;> linarith
    · rw [min_eq_left h, max_eq_right (jsRound_mono (by nlinarith))]
      rw [abs_le]
      constructor <;> linarith
  · intro h1 h2
    rw [min_eq_right h2, max_eq_right h1]
    have : x + dxv - x = dxv := by ring
    rw [this, habs]
    exact ⟨hmlo, hmhi⟩

/-- C5 counterexample: with a 400 by 800 viewport, valid draws
(`dx = +88 = minDx`) and a previous platform at the band's right edge
(x = 328), the generated platform is clamped back to x = 328, so the
horizontal distance is 0, strictly below `minDx = 88`. -/
theorem c5_clamp_defeats_min_distance :
    d5.valid (400 : ℝ) 800 ∧
    jsRound ((400 : ℝ) * 0.18) ≤ prev5.position.x ∧
    prev5.position.x ≤ jsRound ((400 : ℝ) * 0.82) ∧
    (0 : ℝ) < jsRound ((400 : ℝ) * 0.22) ∧
    ¬ (jsRound ((400 : ℝ) * 0.22) ≤
        |(generateNextPlatform d5 400 800 prev5).position.x -
          prev5.position.x|) := by
  have e1 : jsRoundZ ((400 : ℝ) * 0.22) = 88 := jsRoundZ_eq _ 88 (by norm_num) (by norm_num)
  have e2 : jsRoundZ ((400 : ℝ) * 0.45) = 180 := jsRoundZ_eq _ 180 (by norm_num) (by norm_num)
  have e3 : jsRoundZ ((400 : ℝ) * 0.16) = 64 := jsRoundZ_eq _ 64 (by norm_num) (by norm_num)
  have e4 : jsRoundZ ((400 : ℝ) * 0.28) = 112 := jsRoundZ_eq _ 112 (by norm_num) (by norm_num)
  have e5 : jsRoundZ ((800 : ℝ) * 0.06) = 48 := jsRoundZ_eq _ 48 (by norm_num) (by norm_num)
  have f1 : jsRound ((400 : ℝ) * 0.18) = 72 := by
    rw [jsRound_eq _ 72 (by norm_num) (by norm_num)]; norm_num
  have f2 : jsRound ((400 : ℝ) * 0.82) = 328 := by
    rw [jsRound_eq _ 328 (by norm_num) (by norm_num)]; norm_num
  have f3 : jsRound ((400 : ℝ) * 0.22) = 88 := by
    rw [jsRound_eq _ 88 (by norm_num) (by norm_num)]; norm_num
  have hgen : (generateNextPlatform d5 400 800 prev5).position.x = 328 := by
    rw [generate_x_eq_clamp]
    simp only [d5, prev5, f1, f2]
    norm_num [clamp, min_def, max_def]
  refine ⟨⟨?_, ?_, ?_, ?_, ?_, ?_⟩, ?_, ?_, ?_, ?_⟩ <;>
    first
      | (rw [hgen]; simp only [prev5, f3]; norm_num)
      | (simp only [d5, prev5, e1, e2, e3, e4, e5, f1, f2, f3]; norm_num)

/-! ### The launch calculation (C8) -/

/-- C8: the velocity `onTouchEnd` assigns equals the spec's launch formula
(power saturating at 1.2 s of charge, direction divided by
`max(1, Euclidean length)`, `velocity.y` combining the directional term
with the fixed upward impulse), for every press duration and every pair of
looked-up platforms; the direction denominator is floored at 1, so it never
divides by zero. -/
theorem launch_matches_spec (now : ℝ) (s sNew : GameState ℝ) (c t : Platform ℝ)
    (hst : s.gameStarted = true) (hov : s.gameOver = false)
    (hpr : s.isPressing = true)
    (hc : s.platforms[s.currentPlatformId]? = some c)
    (ht : s.platforms[s.targetPlatformId]? = some t)
    (h : onTouchEnd realHyp now s = some sNew) :
    sNew.player.velocity = specLaunch (now - s.pressStartTime) c t s.canvasWidth ∧
    sNew.player.onGround = false ∧
    (1 : ℝ) ≤ max 1 (Real.sqrt ((t.position.x - c.position.x) ^ 2 +
      (t.position.y - c.position.y) ^ 2)) := by
  simp only [onTouchEnd, hst, hov, hpr, Bool.not_true, Bool.or_false,
    Bool.false_or, Bool.false_eq_true, if_false, ite_false, hc, ht,
    Option.some.injEq] at h
  subst h
  refine ⟨?_, rfl, le_max_left _ _⟩
  simp only [specLaunch, realHyp]

/-! ### Landing classification (C9) -/

/-- `checkLanding` is exactly the spec's grounded condition. -/
theorem checkLanding_iff_specGrounded (p : Player ℝ) (t : Platform ℝ) :
    checkLanding p t ↔ specGrounded p t := Iff.rfl

/-- `recenterWorld` can translate x coordinates and trim the platform list,
but it never touches the player's vertical data, the flags, the score or the
press bookkeeping. -/
theorem recenterWorld_preserves {K : Type} [LinearOrderedField K] [FloorRing K]
    (s s₂ : GameState K) (h : recenterWorld s = some s₂) :
    s₂.player.onGround = s.player.onGround ∧
    s₂.player.velocity = s.player.velocity ∧
    s₂.player.position.y = s.player.position.y ∧
    s₂.player.radius = s.player.radius ∧
    s₂.canvasWidth = s.canvasWidth ∧
    s₂.canvasHeight = s.canvasHeight ∧
    s₂.gameOver = s.gameOver ∧
    s₂.gameStarted = s.gameStarted ∧
    s₂.showOverlay = s.showOverlay ∧
    s₂.score = s.score ∧
    s₂.isPressing = s.isPressing ∧
    s₂.pressStartTime = s.pressStartTime := by
  unfold recenterWorld at h
  cases hc : s.platforms[s.currentPlatformId]? with
  | none => rw [hc] at h; cases h
  | some current =>
    rw [hc] at h
    simp only at h
    split at h
    · cases h
      simp
    · split at h
      · split at h
        · cases h
        · cases h
          simp
      · cases h
        simp

/-- C9: the effects of one airborne tick are classified exactly by the
spec's conditions evaluated on the integrated player: the player becomes
grounded iff the grounded condition holds against the target, the session
is over after the tick iff it already was or the fall condition holds, and
when neither condition holds the tick only integrates the player. -/
theorem tick_classifies_landing (d : GenDraws) (dt : ℝ) (s sNew : GameState ℝ)
    (t : Platform ℝ)
    (hair : s.player.onGround = false)
    (ht : s.platforms[s.targetPlatformId]? = some t)
    (h : update d dt s = some sNew) :
    (sNew.player.onGround = true ↔ specGrounded (integrate dt s.player) t) ∧
    (sNew.gameOver = true ↔
      (s.gameOver = true ∨ specFell (integrate dt s.player) s.canvasHeight)) ∧
    (¬ specGrounded (integrate dt s.player) t →
     ¬ specFell (integrate dt s.player) s.canvasHeight →
     sNew = { s with player := integrate dt s.player }) := by
  have hint_ground : (integrate dt s.player).onGround = s.player.onGround := rfl
  have hint_radius : (integrate dt s.player).radius = s.player.radius := rfl
  simp only [update, hair, Bool.false_eq_true, if_false, ite_false, ht] at h
  by_cases hland : checkLanding (integrate dt s.player) t
  · rw [if_pos hland] at h
    cases hrec : recenterWorld
        { s with
          player := { integrate dt s.player with onGround := true, velocity := ⟨0, 0⟩ }
          currentPlatformId := t.id
          targetPlatformId := t.id + 1
          platforms := s.platforms ++
            [generateNextPlatform d s.canvasWidth s.canvasHeight t]
          score := s.score + 1 } with
    | none => rw [hrec] at h; cases h
    | some s₃ =>
      rw [hrec] at h
      simp only [Option.some_bind, Option.some.injEq] at h
      obtain ⟨hog, hvel, hpy, hpr, hcw, hch, hgo, hgs, hso, hsc, hip, hpt⟩ :=
        recenterWorld_preserves _ _ hrec
      simp only at hog hpy hpr hch hgo
      constructor
      · constructor
        · intro _; exact (checkLanding_iff_specGrounded _ _).mp hland
        · intro _
          rw [← h]
          split
          · exact hog
          · exact hog
      · constructor
        · constructor
          · intro hgo2
            rw [← h] at hgo2
            by_cases hfall : s₃.canvasHeight + 80 < s₃.player.position.y - s₃.player.radius
            · right
              simp only [specFell]
              rw [hch, hpy, hpr] at hfall
              exact hfall
            · rw [if_neg hfall] at hgo2
              left
              rw [← hgo]
              exact hgo2
          · intro hgo2
            rw [← h]
            rcases hgo2 with hgo2 | hgo2
            · split
              · simp [endGame]
              · rw [hgo, hgo2]
            · have : s₃.canvasHeight + 80 < s₃.player.position.y - s₃.player.radius := by
                simp only [specFell] at hgo2
                rw [hch, hpy, hpr]
                exact hgo2
              rw [if_pos this]
              simp [endGame]
        · intro hng _
          exact absurd ((checkLanding_iff_specGrounded _ _).mp hland) hng
  · rw [if_neg hland] at h
    simp only [Option.some_bind, Option.some.injEq] at h
    constructor
    · constructor
      · intro hog
        rw [← h] at hog
        exfalso
        have : sNew.player.onGround = s.player.onGround := by
          rw [← h]
          split
          · simp [endGame, hint_ground]
          · simp [hint_ground]
        rw [← h] at this
        rw [this, hair] at hog
        cases hog
      · intro hg
        exact absurd ((checkLanding_iff_specGrounded _ _).mpr hg) hland
    · constructor
      · constructor
        · intro hgo2
          rw [← h] at hgo2
          by_cases hfall :
              ({ s with player := integrate dt s.player } : GameState ℝ).canvasHeight + 80 <
                ({ s with player := integrate dt s.player } : GameState ℝ).player.position.y -
                ({ s with player := integrate dt s.player } : GameState ℝ).player.radius
          · right
            simp only [specFell]
            simp only at hfall
            exact hfall
          · rw [if_neg hfall] at hgo2
            left
            exact hgo2
        · intro hgo2
          rw [← h]
          rcases hgo2 with hgo2 | hgo2
          · split
            · simp [endGame]
            · exact hgo2
          · have : ({ s with player := integrate dt s.player } : GameState ℝ).canvasHeight + 80 <
                ({ s with player := integrate dt s.player } : GameState ℝ).player.position.y -
                ({ s with player := integrate dt s.player } : GameState ℝ).player.radius := by
              simp only [specFell] at hgo2
              exact hgo2
            rw [if_pos this]
            simp [endGame]
      · intro _ hnf
        rw [← h]
        rw [if_neg]
        simp only [specFell] at hnf
        exact hnf

/-! ### The platform-window invariant (C6, C7) -/

theorem map_id_shift {K : Type} [LinearOrderedField K] (dx : K)
    (l : List (Platform K)) :
    (l.map fun p =>
      ({ p with position := ⟨p.position.x + dx, p.position.y⟩ } : Platform K)).map
        Platform.id = l.map Platform.id := by
  induction l with
  | nil => rfl
  | cons p l ih => simp [ih]

theorem length_of_map_id {K : Type} {l : List (Platform K)} {a n : ℕ}
    (hmap : l.map Platform.id = List.range' a n) : l.length = n := by
  have := congrArg List.length hmap
  simpa using this

theorem id_of_getElem {K : Type} {l : List (Platform K)} {a n i : ℕ}
    (hmap : l.map Platform.id = List.range' a n) {t : Platform K}
    (ht : l[i]? = some t) : t.id = a + i ∧ i < n := by
  have h1 : (l.map Platform.id)[i]? = some t.id := by
    rw [List.getElem?_map, ht]; rfl
  rw [hmap] at h1
  have hlen : i < n := by
    by_contra hge
    push_neg at hge
    rw [List.getElem?_eq_none (by simpa using hge)] at h1
    cases h1
  rw [List.getElem?_range' a 1 hlen] at h1
  injection h1 with h1
  omega

theorem drop_range_one (a m k : ℕ) (h : k ≤ m) :
    (List.range' a m).drop k = List.range' (a + k) (m - k) := by
  have h2 : List.range' a m = List.range' a k ++ List.range' (a + k) (m - k) := by
    rw [List.range'_append_1]
    congr 1
    omega
  have h3 := List.drop_left (List.range' a k) (List.range' (a + k) (m - k))
  rw [List.length_range'] at h3
  rw [h2]
  exact h3

theorem none_getElem_of_length_le {α : Type} (l : List α) (i : ℕ)
    (h : l.length ≤ i) : l[i]? = none :=
  List.getElem?_eq_none h

/-- `recenterWorld` preserves the platform-window invariant whenever it
completes. -/
theorem platformInv_recenterWorld {K : Type} [LinearOrderedField K] [FloorRing K]
    (s s3 : GameState K) (h : recenterWorld s = some s3)
    (hinv : PlatformInv s) : PlatformInv s3 := by
  obtain ⟨a, n, hn, hmap, htgt, hshape⟩ := hinv
  unfold recenterWorld at h
  cases hc : s.platforms[s.currentPlatformId]? with
  | none =>
    simp only [hc] at h
    exact Option.noConfusion h
  | some current =>
    simp only [hc] at h
    split at h
    · cases h
      exact ⟨a, n, hn, hmap, htgt, hshape⟩
    · by_cases hlen8 : 8 < (s.platforms.map fun p =>
        ({ p with position := ⟨p.position.x +
          (jsRound (s.canvasWidth * 0.3) - current.position.x),
          p.position.y⟩ } : Platform K)).length
      · rw [if_pos hlen8] at h
        have hlenn : s.platforms.length = n := length_of_map_id hmap
        have hlen1 : (s.platforms.map fun p =>
            ({ p with position := ⟨p.position.x +
              (jsRound (s.canvasWidth * 0.3) - current.position.x),
              p.position.y⟩ } : Platform K)).length = n := by
          simpa using hlenn
        have hmap1 : ((s.platforms.map fun p =>
            ({ p with position := ⟨p.position.x +
              (jsRound (s.canvasWidth * 0.3) - current.position.x),
              p.position.y⟩ } : Platform K)).map Platform.id) = List.range' a n := by
          rw [map_id_shift]
          exact hmap
        have hmap2 : ((s.platforms.map fun p =>
            ({ p with position := ⟨p.position.x +
              (jsRound (s.canvasWidth * 0.3) - current.position.x),
              p.position.y⟩ } : Platform K)).drop
              ((s.platforms.map fun p =>
                ({ p with position := ⟨p.position.x +
                  (jsRound (s.canvasWidth * 0.3) - current.position.x),
                  p.position.y⟩ } : Platform K)).length - 6)).map Platform.id =
            List.range' (a + (n - 6)) 6 := by
          rw [List.map_drop, hmap1, hlen1, drop_range_one a n (n - 6) (by omega)]
          congr 1
          omega
        rw [hlen1] at hlen8
        split at h
        · exact Option.noConfusion h
        · rename_i first h0
          injection h with h
          subst h
          obtain ⟨hfid, -⟩ := id_of_getElem hmap2 h0
          refine ⟨a + (n - 6), 6, by norm_num, hmap2, rfl, Or.inr ?_⟩
          refine ⟨rfl, ?_, by omega⟩
          simpa using hfid
      · rw [if_neg hlen8] at h
        cases h
        refine ⟨a, n, hn, ?_, htgt, hshape⟩
        rw [map_id_shift]
        exact hmap

theorem platformInv_of_eq {K : Type} (s s2 : GameState K)
    (hp : s2.platforms = s.platforms)
    (hc : s2.currentPlatformId = s.currentPlatformId)
    (ht : s2.targetPlatformId = s.targetPlatformId)
    (h : PlatformInv s) : PlatformInv s2 := by
  obtain ⟨a, n, hn, hmap, htgt, hshape⟩ := h
  exact ⟨a, n, hn, by rw [hp]; exact hmap, by rw [ht, hc]; exact htgt,
    by rw [hc]; exact hshape⟩

theorem platformInv_endGame {K : Type} [LinearOrderedField K] [FloorRing K]
    (s : GameState K) (h : PlatformInv s) : PlatformInv (endGame s) :=
  platformInv_of_eq _ _ rfl rfl rfl h

theorem platformInv_resetWorld {K : Type} [LinearOrderedField K] [FloorRing K]
    (d : GenDraws) (s : GameState K) : PlatformInv (resetWorld d s) := by
  refine ⟨0, 2, le_refl 2, ?_, rfl, Or.inl ⟨rfl, rfl⟩⟩
  rfl

/-- Every completed frame update preserves the platform-window invariant. -/
theorem platformInv_update {K : Type} [LinearOrderedField K] [FloorRing K]
    (d : GenDraws) (dt : K) (s s2 : GameState K)
    (h : update d dt s = some s2) (hinv : PlatformInv s) : PlatformInv s2 := by
  simp only [update] at h
  split at h
  · injection h with h
    subst h
    exact hinv
  · cases htg : s.platforms[s.targetPlatformId]? with
    | none =>
      simp only [htg, Option.none_bind] at h
      exact Option.noConfusion h
    | some t =>
      simp only [htg] at h
      obtain ⟨a, n, hn, hmap, htgt, hshape⟩ := hinv
      obtain ⟨hidt, hlt⟩ := id_of_getElem hmap htg
      by_cases hland : checkLanding (integrate dt s.player) t
      · rw [if_pos hland] at h
        rw [Option.bind_eq_some] at h
        obtain ⟨s3, hrec, hwrap⟩ := h
        injection hwrap with hwrap
        have hlenn : s.platforms.length = n := length_of_map_id hmap
        rcases hshape with ⟨ha0, hcn⟩ | ⟨hn6, hcur, ha3⟩
        · have hinvL : PlatformInv
              { s with
                player := { integrate dt s.player with
                  onGround := true, velocity := ⟨0, 0⟩ }
                currentPlatformId := t.id
                targetPlatformId := t.id + 1
                platforms := s.platforms ++
                  [generateNextPlatform d s.canvasWidth s.canvasHeight t]
                score := s.score + 1 } := by
            refine ⟨a, n + 1, by omega, ?_, rfl, Or.inl ⟨ha0, ?_⟩⟩
            · simp only [List.map_append]
              rw [hmap]
              have hgid : (generateNextPlatform d s.canvasWidth
                  s.canvasHeight t).id = t.id + 1 := rfl
              have : List.map Platform.id
                  [generateNextPlatform d s.canvasWidth s.canvasHeight t] =
                  [a + n] := by
                simp only [List.map_cons, List.map_nil, hgid]
                congr 1
                omega
              rw [this, ← List.range'_1_concat]
            · simp only
              omega
          have hinv3 : PlatformInv s3 := platformInv_recenterWorld _ _ hrec hinvL
          subst hwrap
          split
          · exact platformInv_endGame _ hinv3
          · exact hinv3
        · exfalso
          have htid : t.id = 2 * a + 1 := by omega
          have hnone : (s.platforms ++
              [generateNextPlatform d s.canvasWidth s.canvasHeight t])[t.id]? =
              none := by
            apply List.getElem?_eq_none
            simp only [List.length_append, List.length_cons, List.length_nil]
            omega
          unfold recenterWorld at hrec
          simp only [hnone] at hrec
          exact Option.noConfusion hrec
      · rw [if_neg hland] at h
        simp only [Option.some_bind, Option.some.injEq] at h
        subst h
        split
        · exact platformInv_endGame _
            (platformInv_of_eq _ _ rfl rfl rfl ⟨a, n, hn, hmap, htgt, hshape⟩)
        · exact platformInv_of_eq _ _ rfl rfl rfl ⟨a, n, hn, hmap, htgt, hshape⟩

/-- Every completed operation preserves the platform-window invariant. -/
theorem platformInv_step (s s2 : GameState ℝ) (hstep : Step s s2)
    (hinv : PlatformInv s) : PlatformInv s2 := by
  cases hstep with
  | start d hd =>
    unfold startGame
    split
    · exact hinv
    · exact platformInv_resetWorld d _
  | restart d hd => exact platformInv_resetWorld d _
  | touchStart now =>
    unfold onTouchStart
    split
    · exact hinv
    · exact platformInv_of_eq _ _ rfl rfl rfl hinv
  | touchEnd s3 now h =>
    unfold onTouchEnd at h
    split at h
    · injection h with h; subst h; exact hinv
    · split at h
      · injection h with h; subst h; exact hinv
      · split at h
        · injection h with h
          subst h
          exact platformInv_of_eq _ _ rfl rfl rfl hinv
        · exact Option.noConfusion h
  | tick s3 d dt hd hdt0 hdt1 h => exact platformInv_update d dt s s2 h hinv

/-- Every state reachable from an initial state satisfies the
platform-window invariant. -/
theorem platformInv_reachable (s0 s : GameState ℝ) (hinit : PlatformInv s0)
    (hr : Reachable s0 s) : PlatformInv s := by
  induction hr with
  | refl => exact hinit
  | tail hab hbc ih => exact platformInv_step _ _ hbc ih

/-! ### Physics is gated on the grounded flag (C2) -/

/-- A tick never changes anything while the player is grounded. -/
theorem update_grounded {K : Type} [LinearOrderedField K] [FloorRing K]
    (d : GenDraws) (dt : K) (s : GameState K)
    (h : s.player.onGround = true) : update d dt s = some s := by
  unfold update
  rw [if_pos h]

/-- One operation preserves the fact that a not-yet-started session has a
grounded player. -/
theorem notStarted_grounded_step (s s2 : GameState ℝ) (hstep : Step s s2)
    (ih : s.gameStarted = false → s.player.onGround = true) :
    s2.gameStarted = false → s2.player.onGround = true := by
  cases hstep with
  | start d hd =>
    unfold startGame
    split
    · exact ih
    · intro h2
      simp [resetWorld] at h2
  | restart d hd =>
    intro h2
    simp [restartGame, resetWorld]
  | touchStart now =>
    unfold onTouchStart
    split
    · exact ih
    · intro h2
      simp only at h2 ⊢
      exact ih h2
  | touchEnd s3 now h =>
    unfold onTouchEnd at h
    split at h
    · injection h with h; subst h; exact ih
    · split at h
      · injection h with h; subst h; exact ih
      · split at h
        · injection h with h
          subst h
          intro h2
          simp only at h2
          rename ¬(!s.gameStarted || s.gameOver) = true => hguard
          exfalso
          apply hguard
          simp [h2]
        · exact Option.noConfusion h
  | tick s3 d dt hd hdt0 hdt1 h =>
    simp only [update] at h
    split at h
    · injection h with h; subst h; exact ih
    · rename_i hog
      cases htg : s.platforms[s.targetPlatformId]? with
      | none =>
        simp only [htg, Option.none_bind] at h
        exact Option.noConfusion h
      | some t =>
        simp only [htg] at h
        by_cases hland : checkLanding (integrate dt s.player) t
        · rw [if_pos hland] at h
          rw [Option.bind_eq_some] at h
          obtain ⟨s4, hrec, hwrap⟩ := h
          injection hwrap with hwrap
          subst hwrap
          intro hns
          obtain ⟨hog4, -⟩ := recenterWorld_preserves _ _ hrec
          have hg4 : s4.player.onGround = true := by rw [hog4]
          split
          · exact hg4
          · exact hg4
        · rw [if_neg hland] at h
          simp only [Option.some_bind, Option.some.injEq] at h
          subst h
          intro hns
          split at hns
          · simp [endGame] at hns
          · exact absurd (ih hns) hog

/-- In every reachable state that has not been started, the player is
grounded (so ticks are no-ops there). -/
theorem notStarted_grounded (W H : ℝ) (d : GenDraws) (s : GameState ℝ)
    (hr : Reachable (initState W H d) s) :
    s.gameStarted = false → s.player.onGround = true := by
  induction hr with
  | refl => intro _; rfl
  | tail hab hbc ih => exact notStarted_grounded_step _ _ hbc ih

/-! ### Claim theorems C6 and C7 -/

/-- C6: platform identity is the sequence order of creation: the generator
always assigns `id = previous.id + 1`; in every reachable session state the
stored ids are strictly increasing with no duplicates; and ids start at
`[0, 1]` right after reset. -/
theorem c6_platform_ids :
    (forall (d : GenDraws) (W H : ℝ) (prev : Platform ℝ),
      (generateNextPlatform d W H prev).id = prev.id + 1) ∧
    (forall (W H : ℝ) (d : GenDraws) (s : GameState ℝ),
      Reachable (initState W H d) s →
      (s.platforms.map Platform.id).Pairwise (· < ·)) ∧
    (forall (W H : ℝ) (d : GenDraws),
      (initState W H d).platforms.map Platform.id = [0, 1]) := by
  refine ⟨fun d W H prev => rfl, ?_, fun W H d => rfl⟩
  intro W H d s hr
  obtain ⟨a, n, -, hmap, -, -⟩ :=
    platformInv_reachable _ _ (platformInv_resetWorld d _) hr
  rw [hmap]
  exact List.pairwise_lt_range' a n

/-- C7: in every reachable session state (hence immediately before and after
every successful landing, evicting or not) the target id is one past the
current id, and whenever `recenterWorld` changes the number of retained
platforms (an eviction) the new count is exactly 6. -/
theorem c7_window_invariant :
    (forall (W H : ℝ) (d : GenDraws) (s : GameState ℝ),
      Reachable (initState W H d) s →
      s.targetPlatformId = s.currentPlatformId + 1) ∧
    (forall (s s2 : GameState ℝ), recenterWorld s = some s2 →
      s2.platforms.length = s.platforms.length ∨ s2.platforms.length = 6) := by
  constructor
  · intro W H d s hr
    obtain ⟨-, -, -, -, htgt, -⟩ :=
      platformInv_reachable _ _ (platformInv_resetWorld d _) hr
    exact htgt
  · intro s s2 h
    unfold recenterWorld at h
    cases hc : s.platforms[s.currentPlatformId]? with
    | none =>
      simp only [hc] at h
      exact Option.noConfusion h
    | some current =>
      simp only [hc] at h
      split at h
      · cases h
        left
        rfl
      · split at h
        · split at h
          · exact Option.noConfusion h
          · injection h with h
            subst h
            right
            simp only [List.length_drop, List.length_map]
            rename 8 < _ => hlen
            rw [List.length_map] at hlen
            omega
        · injection h with h
          subst h
          left
          simp


/-! ### Concrete evaluation lemmas for the traces -/


theorem jr1 : jsRound ((20:ℝ) * 0.3) = 6 := by
  rw [jsRound_eq _ 6 (by norm_num) (by norm_num)]; norm_num
theorem jr2 : jsRound ((20:ℝ) * 0.7) = 14 := by
  rw [jsRound_eq _ 14 (by norm_num) (by norm_num)]; norm_num
theorem jr3 : jsRound ((20:ℝ) * 0.22) = 4 := by
  rw [jsRound_eq _ 4 (by norm_num) (by norm_num)]; norm_num
theorem jr4 : jsRound ((20:ℝ) * 0.06) = 1 := by
  rw [jsRound_eq _ 1 (by norm_num) (by norm_num)]; norm_num
theorem jr5 : jsRound ((20:ℝ) / 20) = 1 := by
  rw [jsRound_eq _ 1 (by norm_num) (by norm_num)]; norm_num
theorem jr6 : jsRound ((20:ℝ) * 0.18) = 4 := by
  rw [jsRound_eq _ 4 (by norm_num) (by norm_num)]; norm_num
theorem jr7 : jsRound ((20:ℝ) * 0.82) = 16 := by
  rw [jsRound_eq _ 16 (by norm_num) (by norm_num)]; norm_num
theorem jr8 : jsRound ((20:ℝ) * 0.35) = 7 := by
  rw [jsRound_eq _ 7 (by norm_num) (by norm_num)]; norm_num
theorem jr9 : jsRound ((20:ℝ) * 0.8) = 16 := by
  rw [jsRound_eq _ 16 (by norm_num) (by norm_num)]; norm_num
theorem jr10 : jsRound ((3:ℝ) * 0.28) = 1 := by
  rw [jsRound_eq _ 1 (by norm_num) (by norm_num)]; norm_num

theorem js1 : jsRound (6:ℝ) = 6 := by
  rw [jsRound_eq _ 6 (by norm_num) (by norm_num)]; norm_num
theorem js2 : jsRound (14:ℝ) = 14 := by
  rw [jsRound_eq _ 14 (by norm_num) (by norm_num)]; norm_num
theorem js3 : jsRound (1:ℝ) = 1 := by
  rw [jsRound_eq _ 1 (by norm_num) (by norm_num)]; norm_num
theorem js4 : jsRound ((22:ℝ) / 5) = 4 := by
  rw [jsRound_eq _ 4 (by norm_num) (by norm_num)]; norm_num
theorem js5 : jsRound ((6:ℝ) / 5) = 1 := by
  rw [jsRound_eq _ 1 (by norm_num) (by norm_num)]; norm_num
theorem js6 : jsRound ((18:ℝ) / 5) = 4 := by
  rw [jsRound_eq _ 4 (by norm_num) (by norm_num)]; norm_num
theorem js7 : jsRound ((82:ℝ) / 5) = 16 := by
  rw [jsRound_eq _ 16 (by norm_num) (by norm_num)]; norm_num
theorem js8 : jsRound (7:ℝ) = 7 := by
  rw [jsRound_eq _ 7 (by norm_num) (by norm_num)]; norm_num
theorem js9 : jsRound (16:ℝ) = 16 := by
  rw [jsRound_eq _ 16 (by norm_num) (by norm_num)]; norm_num
theorem js10 : jsRound ((21:ℝ) / 25) = 1 := by
  rw [jsRound_eq _ 1 (by norm_num) (by norm_num)]; norm_num

theorem rh40 : realHyp 4 0 = 4 := by
  unfold realHyp
  rw [show (4:ℝ)^2 + (0:ℝ)^2 = 4^2 by norm_num, Real.sqrt_sq (by norm_num)]

theorem jz1 : jsRoundZ ((20:ℝ) * 0.22) = 4 := jsRoundZ_eq _ 4 (by norm_num) (by norm_num)
theorem jz2 : jsRoundZ ((20:ℝ) * 0.45) = 9 := jsRoundZ_eq _ 9 (by norm_num) (by norm_num)
theorem jz3 : jsRoundZ ((20:ℝ) * 0.16) = 3 := jsRoundZ_eq _ 3 (by norm_num) (by norm_num)
theorem jz4 : jsRoundZ ((20:ℝ) * 0.28) = 6 := jsRoundZ_eq _ 6 (by norm_num) (by norm_num)
theorem jz5 : jsRoundZ ((20:ℝ) * 0.06) = 1 := jsRoundZ_eq _ 1 (by norm_num) (by norm_num)

theorem d0_valid : d0.valid (20:ℝ) 20 := by
  unfold GenDraws.valid d0
  rw [jz1, jz2, jz3, jz4, jz5]
  norm_num

theorem trace_start :
    startGame d0 (initState (20:ℝ) 20 d0) = jstate [] 0 (p0x 6) 6 7 0 0 := by
  simp only [initState, pageInit, resetWorld, startGame, initialPlatform,
    generateNextPlatform, d0, clamp, palette, jstate, p0x, mkP,
    jr1, jr2, jr3, jr4, jr5, jr6, jr7, jr8, jr9, jr10,
    Int.cast_ofNat, List.nil_append, if_true, ite_true, Bool.false_eq_true,
    if_false, ite_false]
  norm_num [min_def, max_def, js1, js2, js3, js4, js5, js6, js7, js8, js9, js10]

theorem trace_touchStart1 :
    onTouchStart 1000 (jstate [] 0 (p0x 6) 6 7 0 0) =
      { jstate [] 0 (p0x 6) 6 7 0 0 with
        isPressing := true, pressStartTime := 1000 } := rfl

theorem trace_press0 :
    onTouchEnd realHyp 1000
      { jstate [] 0 (p0x 6) 6 7 0 0 with
        isPressing := true, pressStartTime := 1000 } =
      some (tstate 7 0 false 1000) := by
  simp only [onTouchEnd, jstate, tstate, p0x, mkP, d0, palette,
    List.nil_append, List.getElem?_cons_zero, List.getElem?_cons_succ,
    Bool.not_true, Bool.or_false, Bool.false_eq_true, if_false, ite_false,
    Bool.not_false, Bool.true_eq_false, Option.some.injEq]
  norm_num [rh40, min_def, max_def, chargeFactor, horizontalFactor]

theorem trace_touchStart2 :
    onTouchStart 2000 (tstate 7 0 false 1000) = tstate 7 0 true 2000 := rfl

theorem tick_free_fall (y vy : ℝ) (b : Bool) (pt : ℝ)
    (hnf : y + (vy + 66) * 0.033 ≤ 101) :
    update d0 0.033 (tstate y vy b pt) =
      some (tstate (y + (vy + 66) * 0.033) (vy + 66) b pt) := by
  simp only [update, tstate, integrate, gravity, p0x, mkP, d0,
    List.getElem?_cons_zero, List.getElem?_cons_succ,
    Bool.false_eq_true, if_false, ite_false, checkLanding]
  norm_num
  intro hfall
  exfalso
  linarith

theorem tick_fall_detect :
    update d0 0.033 (tstate 85.408 528 true 2000) =
      some (tstateOver 105.01 594) := by
  simp only [update, tstate, tstateOver, endGame, integrate, gravity, p0x, mkP,
    d0, List.getElem?_cons_zero, List.getElem?_cons_succ,
    Bool.false_eq_true, if_false, ite_false, checkLanding]
  norm_num

theorem tick_after_over :
    update d0 0.033 (tstateOver 105.01 594) =
      some (tstateOver 126.79 660) := by
  simp only [update, tstate, tstateOver, endGame, integrate, gravity, p0x, mkP,
    d0, List.getElem?_cons_zero, List.getElem?_cons_succ,
    Bool.false_eq_true, if_false, ite_false, checkLanding]
  norm_num

theorem press_airborne :
    onTouchEnd realHyp 3200 (tstate 9.178 66 true 2000) =
      some { tstate 9.178 66 true 2000 with
        isPressing := false,
        player := ⟨⟨6, 9.178⟩, ⟨60.48, -80.64⟩, 1, "#ffdd57", false⟩ } := by
  simp only [onTouchEnd, tstate, p0x, mkP,
    List.getElem?_cons_zero, List.getElem?_cons_succ,
    Bool.not_true, Bool.or_false, Bool.false_eq_true, if_false, ite_false,
    Bool.not_false, Bool.true_eq_false, Option.some.injEq]
  norm_num [rh40, min_def, max_def, chargeFactor, horizontalFactor]

theorem trace_restart :
    restartGame d0 (tstateOver 105.01 594) =
      { jstate [] 0 (p0x 6) 6 7 2000 0 with isPressing := true } := by
  simp only [restartGame, resetWorld, tstate, tstateOver, initialPlatform,
    generateNextPlatform, d0, clamp, palette, jstate, p0x, mkP,
    jr1, jr2, jr3, jr4, jr5, jr6, jr7, jr8, jr9, jr10,
    Int.cast_ofNat, List.nil_append]
  norm_num [min_def, max_def, js1, js2, js3, js4, js5, js6, js7, js8, js9, js10]

theorem press_stale :
    onTouchEnd realHyp 3200
      { jstate [] 0 (p0x 6) 6 7 2000 0 with isPressing := true } =
      some { jstate [] 0 (p0x 6) 6 7 2000 0 with
        isPressing := false,
        player := ⟨⟨6, 7⟩, ⟨60.48, -80.64⟩, 1, "#ffdd57", false⟩ } := by
  simp only [onTouchEnd, jstate, p0x, mkP, List.nil_append,
    List.getElem?_cons_zero, List.getElem?_cons_succ,
    Bool.not_true, Bool.or_false, Bool.false_eq_true, if_false, ite_false,
    Bool.not_false, Bool.true_eq_false, Option.some.injEq]
  norm_num [rh40, min_def, max_def, chargeFactor, horizontalFactor]



theorem touchStart_jstate (L : List (Platform ℝ)) (i : ℕ) (cp : Platform ℝ)
    (x y pt now : ℝ) (sc : ℕ) :
    onTouchStart now (jstate L i cp x y pt sc) =
      { jstate L i cp x y pt sc with
        isPressing := true, pressStartTime := now } := rfl


/-! ### The eight jumps of the eviction trace -/


theorem jump1_press :
    onTouchEnd realHyp 11200
      { jstate [] 0 (p0x 6) 6 7 0 0 with
        isPressing := true, pressStartTime := 10000 } =
      some (astate [] 0 (p0x 6) 6 7 60.48 (-80.64) 10000 0) := by
  simp only [onTouchEnd, jstate, astate, p0x, mkP,
    List.cons_append, List.nil_append,
    List.getElem?_cons_zero, List.getElem?_cons_succ,
    Bool.not_true, Bool.or_false, Bool.false_eq_true, if_false, ite_false,
    Bool.not_false, Bool.true_eq_false, Option.some.injEq]
  norm_num [rh40, min_def, max_def, chargeFactor, horizontalFactor]

theorem jump1_t1 :
    update d0 0.033 (astate [] 0 (p0x 6) 6 7 60.48 (-80.64) 10000 0) =
      some (astate [] 0 (p0x 6) 7.99584 6.51688 60.48 (-14.64) 10000 0) := by
  simp only [update, astate, integrate, gravity, p0x, mkP, d0, checkLanding,
    List.cons_append, List.nil_append,
    List.getElem?_cons_zero, List.getElem?_cons_succ,
    Bool.false_eq_true, if_false, ite_false]
  norm_num

theorem jump1_t2 :
    update d0 0.033 (astate [] 0 (p0x 6) 7.99584 6.51688 60.48 (-14.64) 10000 0) =
      some (jstate [p0x 2] 1 (mkP 1 6) 5.99168 8.21176 10000 1) := by
  simp only [update, astate, jstate, evState, integrate, gravity, p0x, mkP, d0, checkLanding,
    recenterWorld, generateNextPlatform, clamp, palette, endGame,
    jr1, jr2, jr3, jr4, jr5, jr6, jr7, jr8, jr9, jr10,
    Int.cast_ofNat,
    List.cons_append, List.nil_append, List.map_cons, List.map_nil,
    List.length_cons, List.length_nil, List.length_append,
    List.getElem?_cons_zero, List.getElem?_cons_succ,
    Bool.false_eq_true, if_false, ite_false]
  norm_num [min_def, max_def, js1, js2, js3, js4, js5, js6, js7, js8, js9, js10,
    List.drop_succ_cons, List.drop_zero, List.getElem?_cons_zero, List.getElem?_cons_succ]

theorem jump2_press :
    onTouchEnd realHyp 21200
      { jstate [p0x 2] 1 (mkP 1 6) 5.99168 8.21176 10000 1 with
        isPressing := true, pressStartTime := 20000 } =
      some (astate [p0x 2] 1 (mkP 1 6) 5.99168 8.21176 60.48 (-80.64) 20000 1) := by
  simp only [onTouchEnd, jstate, astate, p0x, mkP,
    List.cons_append, List.nil_append,
    List.getElem?_cons_zero, List.getElem?_cons_succ,
    Bool.not_true, Bool.or_false, Bool.false_eq_true, if_false, ite_false,
    Bool.not_false, Bool.true_eq_false, Option.some.injEq]
  norm_num [rh40, min_def, max_def, chargeFactor, horizontalFactor]

theorem jump2_t1 :
    update d0 0.033 (astate [p0x 2] 1 (mkP 1 6) 5.99168 8.21176 60.48 (-80.64) 20000 1) =
      some (astate [p0x 2] 1 (mkP 1 6) 7.98752 7.72864 60.48 (-14.64) 20000 1) := by
  simp only [update, astate, integrate, gravity, p0x, mkP, d0, checkLanding,
    List.cons_append, List.nil_append,
    List.getElem?_cons_zero, List.getElem?_cons_succ,
    Bool.false_eq_true, if_false, ite_false]
  norm_num

theorem jump2_t2 :
    update d0 0.033 (astate [p0x 2] 1 (mkP 1 6) 7.98752 7.72864 60.48 (-14.64) 20000 1) =
      some (jstate [p0x (-2), mkP 1 2] 2 (mkP 2 6) 5.98336 9.42352 20000 2) := by
  simp only [update, astate, jstate, evState, integrate, gravity, p0x, mkP, d0, checkLanding,
    recenterWorld, generateNextPlatform, clamp, palette, endGame,
    jr1, jr2, jr3, jr4, jr5, jr6, jr7, jr8, jr9, jr10,
    Int.cast_ofNat,
    List.cons_append, List.nil_append, List.map_cons, List.map_nil,
    List.length_cons, List.length_nil, List.length_append,
    List.getElem?_cons_zero, List.getElem?_cons_succ,
    Bool.false_eq_true, if_false, ite_false]
  norm_num [min_def, max_def, js1, js2, js3, js4, js5, js6, js7, js8, js9, js10,
    List.drop_succ_cons, List.drop_zero, List.getElem?_cons_zero, List.getElem?_cons_succ]

theorem jump3_press :
    onTouchEnd realHyp 31200
      { jstate [p0x (-2), mkP 1 2] 2 (mkP 2 6) 5.98336 9.42352 20000 2 with
        isPressing := true, pressStartTime := 30000 } =
      some (astate [p0x (-2), mkP 1 2] 2 (mkP 2 6) 5.98336 9.42352 60.48 (-80.64) 30000 2) := by
  simp only [onTouchEnd, jstate, astate, p0x, mkP,
    List.cons_append, List.nil_append,
    List.getElem?_cons_zero, List.getElem?_cons_succ,
    Bool.not_true, Bool.or_false, Bool.false_eq_true, if_false, ite_false,
    Bool.not_false, Bool.true_eq_false, Option.some.injEq]
  norm_num [rh40, min_def, max_def, chargeFactor, horizontalFactor]

theorem jump3_t1 :
    update d0 0.033 (astate [p0x (-2), mkP 1 2] 2 (mkP 2 6) 5.98336 9.42352 60.48 (-80.64) 30000 2) =
      some (astate [p0x (-2), mkP 1 2] 2 (mkP 2 6) 7.9792 8.9404 60.48 (-14.64) 30000 2) := by
  simp only [update, astate, integrate, gravity, p0x, mkP, d0, checkLanding,
    List.cons_append, List.nil_append,
    List.getElem?_cons_zero, List.getElem?_cons_succ,
    Bool.false_eq_true, if_false, ite_false]
  norm_num

theorem jump3_t2 :
    update d0 0.033 (astate [p0x (-2), mkP 1 2] 2 (mkP 2 6) 7.9792 8.9404 60.48 (-14.64) 30000 2) =
      some (jstate [p0x (-6), mkP 1 (-2), mkP 2 2] 3 (mkP 3 6) 5.97504 10.63528 30000 3) := by
  simp only [update, astate, jstate, evState, integrate, gravity, p0x, mkP, d0, checkLanding,
    recenterWorld, generateNextPlatform, clamp, palette, endGame,
    jr1, jr2, jr3, jr4, jr5, jr6, jr7, jr8, jr9, jr10,
    Int.cast_ofNat,
    List.cons_append, List.nil_append, List.map_cons, List.map_nil,
    List.length_cons, List.length_nil, List.length_append,
    List.getElem?_cons_zero, List.getElem?_cons_succ,
    Bool.false_eq_true, if_false, ite_false]
  norm_num [min_def, max_def, js1, js2, js3, js4, js5, js6, js7, js8, js9, js10,
    List.drop_succ_cons, List.drop_zero, List.getElem?_cons_zero, List.getElem?_cons_succ]

theorem jump4_press :
    onTouchEnd realHyp 41200
      { jstate [p0x (-6), mkP 1 (-2), mkP 2 2] 3 (mkP 3 6) 5.97504 10.63528 30000 3 with
        isPressing := true, pressStartTime := 40000 } =
      some (astate [p0x (-6), mkP 1 (-2), mkP 2 2] 3 (mkP 3 6) 5.97504 10.63528 60.48 (-80.64) 40000 3) := by
  simp only [onTouchEnd, jstate, astate, p0x, mkP,
    List.cons_append, List.nil_append,
    List.getElem?_cons_zero, List.getElem?_cons_succ,
    Bool.not_true, Bool.or_false, Bool.false_eq_true, if_false, ite_false,
    Bool.not_false, Bool.true_eq_false, Option.some.injEq]
  norm_num [rh40, min_def, max_def, chargeFactor, horizontalFactor]

theorem jump4_t1 :
    update d0 0.033 (astate [p0x (-6), mkP 1 (-2), mkP 2 2] 3 (mkP 3 6) 5.97504 10.63528 60.48 (-80.64) 40000 3) =
      some (astate [p0x (-6), mkP 1 (-2), mkP 2 2] 3 (mkP 3 6) 7.97088 10.15216 60.48 (-14.64) 40000 3) := by
  simp only [update, astate, integrate, gravity, p0x, mkP, d0, checkLanding,
    List.cons_append, List.nil_append,
    List.getElem?_cons_zero, List.getElem?_cons_succ,
    Bool.false_eq_true, if_false, ite_false]
  norm_num

theorem jump4_t2 :
    update d0 0.033 (astate [p0x (-6), mkP 1 (-2), mkP 2 2] 3 (mkP 3 6) 7.97088 10.15216 60.48 (-14.64) 40000 3) =
      some (jstate [p0x (-10), mkP 1 (-6), mkP 2 (-2), mkP 3 2] 4 (mkP 4 6) 5.96672 11.84704 40000 4) := by
  simp only [update, astate, jstate, evState, integrate, gravity, p0x, mkP, d0, checkLanding,
    recenterWorld, generateNextPlatform, clamp, palette, endGame,
    jr1, jr2, jr3, jr4, jr5, jr6, jr7, jr8, jr9, jr10,
    Int.cast_ofNat,
    List.cons_append, List.nil_append, List.map_cons, List.map_nil,
    List.length_cons, List.length_nil, List.length_append,
    List.getElem?_cons_zero, List.getElem?_cons_succ,
    Bool.false_eq_true, if_false, ite_false]
  norm_num [min_def, max_def, js1, js2, js3, js4, js5, js6, js7, js8, js9, js10,
    List.drop_succ_cons, List.drop_zero, List.getElem?_cons_zero, List.getElem?_cons_succ]

theorem jump5_press :
    onTouchEnd realHyp 51200
      { jstate [p0x (-10), mkP 1 (-6), mkP 2 (-2), mkP 3 2] 4 (mkP 4 6) 5.96672 11.84704 40000 4 with
        isPressing := true, pressStartTime := 50000 } =
      some (astate [p0x (-10), mkP 1 (-6), mkP 2 (-2), mkP 3 2] 4 (mkP 4 6) 5.96672 11.84704 60.48 (-80.64) 50000 4) := by
  simp only [onTouchEnd, jstate, astate, p0x, mkP,
    List.cons_append, List.nil_append,
    List.getElem?_cons_zero, List.getElem?_cons_succ,
    Bool.not_true, Bool.or_false, Bool.false_eq_true, if_false, ite_false,
    Bool.not_false, Bool.true_eq_false, Option.some.injEq]
  norm_num [rh40, min_def, max_def, chargeFactor, horizontalFactor]

theorem jump5_t1 :
    update d0 0.033 (astate [p0x (-10), mkP 1 (-6), mkP 2 (-2), mkP 3 2] 4 (mkP 4 6) 5.96672 11.84704 60.48 (-80.64) 50000 4) =
      some (astate [p0x (-10), mkP 1 (-6), mkP 2 (-2), mkP 3 2] 4 (mkP 4 6) 7.96256 11.36392 60.48 (-14.64) 50000 4) := by
  simp only [update, astate, integrate, gravity, p0x, mkP, d0, checkLanding,
    List.cons_append, List.nil_append,
    List.getElem?_cons_zero, List.getElem?_cons_succ,
    Bool.false_eq_true, if_false, ite_false]
  norm_num

theorem jump5_t2 :
    update d0 0.033 (astate [p0x (-10), mkP 1 (-6), mkP 2 (-2), mkP 3 2] 4 (mkP 4 6) 7.96256 11.36392 60.48 (-14.64) 50000 4) =
      some (jstate [p0x (-14), mkP 1 (-10), mkP 2 (-6), mkP 3 (-2), mkP 4 2] 5 (mkP 5 6) 5.9584 13.0588 50000 5) := by
  simp only [update, astate, jstate, evState, integrate, gravity, p0x, mkP, d0, checkLanding,
    recenterWorld, generateNextPlatform, clamp, palette, endGame,
    jr1, jr2, jr3, jr4, jr5, jr6, jr7, jr8, jr9, jr10,
    Int.cast_ofNat,
    List.cons_append, List.nil_append, List.map_cons, List.map_nil,
    List.length_cons, List.length_nil, List.length_append,
    List.getElem?_cons_zero, List.getElem?_cons_succ,
    Bool.false_eq_true, if_false, ite_false]
  norm_num [min_def, max_def, js1, js2, js3, js4, js5, js6, js7, js8, js9, js10,
    List.drop_succ_cons, List.drop_zero, List.getElem?_cons_zero, List.getElem?_cons_succ]

theorem jump6_press :
    onTouchEnd realHyp 61200
      { jstate [p0x (-14), mkP 1 (-10), mkP 2 (-6), mkP 3 (-2), mkP 4 2] 5 (mkP 5 6) 5.9584 13.0588 50000 5 with
        isPressing := true, pressStartTime := 60000 } =
      some (astate [p0x (-14), mkP 1 (-10), mkP 2 (-6), mkP 3 (-2), mkP 4 2] 5 (mkP 5 6) 5.9584 13.0588 60.48 (-80.64) 60000 5) := by
  simp only [onTouchEnd, jstate, astate, p0x, mkP,
    List.cons_append, List.nil_append,
    List.getElem?_cons_zero, List.getElem?_cons_succ,
    Bool.not_true, Bool.or_false, Bool.false_eq_true, if_false, ite_false,
    Bool.not_false, Bool.true_eq_false, Option.some.injEq]
  norm_num [rh40, min_def, max_def, chargeFactor, horizontalFactor]

theorem jump6_t1 :
    update d0 0.033 (astate [p0x (-14), mkP 1 (-10), mkP 2 (-6), mkP 3 (-2), mkP 4 2] 5 (mkP 5 6) 5.9584 13.0588 60.48 (-80.64) 60000 5) =
      some (astate [p0x (-14), mkP 1 (-10), mkP 2 (-6), mkP 3 (-2), mkP 4 2] 5 (mkP 5 6) 7.95424 12.57568 60.48 (-14.64) 60000 5) := by
  simp only [update, astate, integrate, gravity, p0x, mkP, d0, checkLanding,
    List.cons_append, List.nil_append,
    List.getElem?_cons_zero, List.getElem?_cons_succ,
    Bool.false_eq_true, if_false, ite_false]
  norm_num

theorem jump6_t2 :
    update d0 0.033 (astate [p0x (-14), mkP 1 (-10), mkP 2 (-6), mkP 3 (-2), mkP 4 2] 5 (mkP 5 6) 7.95424 12.57568 60.48 (-14.64) 60000 5) =
      some (jstate [p0x (-18), mkP 1 (-14), mkP 2 (-10), mkP 3 (-6), mkP 4 (-2), mkP 5 2] 6 (mkP 6 6) 5.95008 14.27056 60000 6) := by
  simp only [update, astate, jstate, evState, integrate, gravity, p0x, mkP, d0, checkLanding,
    recenterWorld, generateNextPlatform, clamp, palette, endGame,
    jr1, jr2, jr3, jr4, jr5, jr6, jr7, jr8, jr9, jr10,
    Int.cast_ofNat,
    List.cons_append, List.nil_append, List.map_cons, List.map_nil,
    List.length_cons, List.length_nil, List.length_append,
    List.getElem?_cons_zero, List.getElem?_cons_succ,
    Bool.false_eq_true, if_false, ite_false]
  norm_num [min_def, max_def, js1, js2, js3, js4, js5, js6, js7, js8, js9, js10,
    List.drop_succ_cons, List.drop_zero, List.getElem?_cons_zero, List.getElem?_cons_succ]

theorem jump7_press :
    onTouchEnd realHyp 71200
      { jstate [p0x (-18), mkP 1 (-14), mkP 2 (-10), mkP 3 (-6), mkP 4 (-2), mkP 5 2] 6 (mkP 6 6) 5.95008 14.27056 60000 6 with
        isPressing := true, pressStartTime := 70000 } =
      some (astate [p0x (-18), mkP 1 (-14), mkP 2 (-10), mkP 3 (-6), mkP 4 (-2), mkP 5 2] 6 (mkP 6 6) 5.95008 14.27056 60.48 (-80.64) 70000 6) := by
  simp only [onTouchEnd, jstate, astate, p0x, mkP,
    List.cons_append, List.nil_append,
    List.getElem?_cons_zero, List.getElem?_cons_succ,
    Bool.not_true, Bool.or_false, Bool.false_eq_true, if_false, ite_false,
    Bool.not_false, Bool.true_eq_false, Option.some.injEq]
  norm_num [rh40, min_def, max_def, chargeFactor, horizontalFactor]

theorem jump7_t1 :
    update d0 0.033 (astate [p0x (-18), mkP 1 (-14), mkP 2 (-10), mkP 3 (-6), mkP 4 (-2), mkP 5 2] 6 (mkP 6 6) 5.95008 14.27056 60.48 (-80.64) 70000 6) =
      some (astate [p0x (-18), mkP 1 (-14), mkP 2 (-10), mkP 3 (-6), mkP 4 (-2), mkP 5 2] 6 (mkP 6 6) 7.94592 13.78744 60.48 (-14.64) 70000 6) := by
  simp only [update, astate, integrate, gravity, p0x, mkP, d0, checkLanding,
    List.cons_append, List.nil_append,
    List.getElem?_cons_zero, List.getElem?_cons_succ,
    Bool.false_eq_true, if_false, ite_false]
  norm_num

theorem jump7_t2 :
    update d0 0.033 (astate [p0x (-18), mkP 1 (-14), mkP 2 (-10), mkP 3 (-6), mkP 4 (-2), mkP 5 2] 6 (mkP 6 6) 7.94592 13.78744 60.48 (-14.64) 70000 6) =
      some evState := by
  simp only [update, astate, jstate, evState, integrate, gravity, p0x, mkP, d0, checkLanding,
    recenterWorld, generateNextPlatform, clamp, palette, endGame,
    jr1, jr2, jr3, jr4, jr5, jr6, jr7, jr8, jr9, jr10,
    Int.cast_ofNat,
    List.cons_append, List.nil_append, List.map_cons, List.map_nil,
    List.length_cons, List.length_nil, List.length_append,
    List.getElem?_cons_zero, List.getElem?_cons_succ,
    Bool.false_eq_true, if_false, ite_false]
  norm_num [min_def, max_def, js1, js2, js3, js4, js5, js6, js7, js8, js9, js10,
    List.drop_succ_cons, List.drop_zero, List.getElem?_cons_zero, List.getElem?_cons_succ]

theorem jump8_touchStart :
    onTouchStart 80000 evState =
      { evState with isPressing := true, pressStartTime := 80000 } := rfl

theorem jump8_press :
    onTouchEnd realHyp 80100
      { evState with isPressing := true, pressStartTime := 80000 } =
      some evLaunched := by
  simp only [onTouchEnd, evState, evLaunched, p0x, mkP,
    List.getElem?_cons_zero, List.getElem?_cons_succ,
    Bool.not_true, Bool.or_false, Bool.false_eq_true, if_false, ite_false,
    Bool.not_false, Bool.true_eq_false, Option.some.injEq]
  norm_num [rh40, min_def, max_def, chargeFactor, horizontalFactor]

theorem crash_tick : update d0 0.033 evLaunched = none := by
  simp only [update, evState, evLaunched, integrate, gravity, p0x, mkP, d0, checkLanding,
    recenterWorld, generateNextPlatform, clamp, palette, endGame,
    jr1, jr2, jr3, jr4, jr5, jr6, jr7, jr8, jr9, jr10,
    Int.cast_ofNat,
    List.cons_append, List.nil_append, List.map_cons, List.map_nil,
    List.length_cons, List.length_nil, List.length_append,
    List.getElem?_cons_zero, List.getElem?_cons_succ,
    Bool.false_eq_true, if_false, ite_false]
  norm_num [min_def, max_def, js1, js2, js3, js4, js5, js6, js7, js8, js9, js10,
    List.getElem?_cons_zero, List.getElem?_cons_succ]


theorem ffeq1 :
    update d0 0.033 (tstate 7 0 true 2000) =
      some (tstate 9.178 66 true 2000) := by
  have h := tick_free_fall 7 0 true 2000 (by norm_num)
  rw [show (7:ℝ) + (0 + 66) * 0.033 = 9.178 by norm_num,
      show (0:ℝ) + 66 = 66 by norm_num] at h
  exact h

theorem ffeq2 :
    update d0 0.033 (tstate 9.178 66 true 2000) =
      some (tstate 13.534 132 true 2000) := by
  have h := tick_free_fall 9.178 66 true 2000 (by norm_num)
  rw [show (9.178:ℝ) + (66 + 66) * 0.033 = 13.534 by norm_num,
      show (66:ℝ) + 66 = 132 by norm_num] at h
  exact h

theorem ffeq3 :
    update d0 0.033 (tstate 13.534 132 true 2000) =
      some (tstate 20.068 198 true 2000) := by
  have h := tick_free_fall 13.534 132 true 2000 (by norm_num)
  rw [show (13.534:ℝ) + (132 + 66) * 0.033 = 20.068 by norm_num,
      show (132:ℝ) + 66 = 198 by norm_num] at h
  exact h

theorem ffeq4 :
    update d0 0.033 (tstate 20.068 198 true 2000) =
      some (tstate 28.78 264 true 2000) := by
  have h := tick_free_fall 20.068 198 true 2000 (by norm_num)
  rw [show (20.068:ℝ) + (198 + 66) * 0.033 = 28.78 by norm_num,
      show (198:ℝ) + 66 = 264 by norm_num] at h
  exact h

theorem ffeq5 :
    update d0 0.033 (tstate 28.78 264 true 2000) =
      some (tstate 39.67 330 true 2000) := by
  have h := tick_free_fall 28.78 264 true 2000 (by norm_num)
  rw [show (28.78:ℝ) + (264 + 66) * 0.033 = 39.67 by norm_num,
      show (264:ℝ) + 66 = 330 by norm_num] at h
  exact h

theorem ffeq6 :
    update d0 0.033 (tstate 39.67 330 true 2000) =
      some (tstate 52.738 396 true 2000) := by
  have h := tick_free_fall 39.67 330 true 2000 (by norm_num)
  rw [show (39.67:ℝ) + (330 + 66) * 0.033 = 52.738 by norm_num,
      show (330:ℝ) + 66 = 396 by norm_num] at h
  exact h

theorem ffeq7 :
    update d0 0.033 (tstate 52.738 396 true 2000) =
      some (tstate 67.984 462 true 2000) := by
  have h := tick_free_fall 52.738 396 true 2000 (by norm_num)
  rw [show (52.738:ℝ) + (396 + 66) * 0.033 = 67.984 by norm_num,
      show (396:ℝ) + 66 = 462 by norm_num] at h
  exact h

theorem ffeq8 :
    update d0 0.033 (tstate 67.984 462 true 2000) =
      some (tstate 85.408 528 true 2000) := by
  have h := tick_free_fall 67.984 462 true 2000 (by norm_num)
  rw [show (67.984:ℝ) + (462 + 66) * 0.033 = 85.408 by norm_num,
      show (462:ℝ) + 66 = 528 by norm_num] at h
  exact h

/-! ### Reachability of the trace states -/

theorem reach_S1 :
    Reachable (initState (20:ℝ) 20 d0) (jstate [] 0 (p0x 6) 6 7 0 0) := by
  have h0 := Step.start (initState (20:ℝ) 20 d0) d0 d0_valid
  rw [trace_start] at h0
  exact Relation.ReflTransGen.single h0

theorem reach_S4 :
    Reachable (initState (20:ℝ) 20 d0) (tstate 7 0 true 2000) := by
  have h1 := Step.touchStart (jstate [] 0 (p0x 6) 6 7 0 0) 1000
  rw [touchStart_jstate] at h1
  have h2 := Step.touchEnd _ _ 1000 trace_press0
  have h3 := Step.touchStart (tstate 7 0 false 1000) 2000
  rw [trace_touchStart2] at h3
  exact ((reach_S1.tail h1).tail h2).tail h3

theorem tick_step (a b : GameState ℝ) (hW : a.canvasWidth = 20)
    (hH : a.canvasHeight = 20) (h : update d0 0.033 a = some b) :
    Step a b :=
  Step.tick a b d0 0.033 (by rw [hW, hH]; exact d0_valid)
    (by norm_num) (by norm_num) h

theorem reach_T1 :
    Reachable (initState (20:ℝ) 20 d0) (tstate 9.178 66 true 2000) :=
  reach_S4.tail (tick_step _ _ rfl rfl ffeq1)

theorem reach_gameOver :
    Reachable (initState (20:ℝ) 20 d0) (tstateOver 105.01 594) :=
  ((((((((reach_T1.tail (tick_step _ _ rfl rfl ffeq2)).tail
    (tick_step _ _ rfl rfl ffeq3)).tail
    (tick_step _ _ rfl rfl ffeq4)).tail
    (tick_step _ _ rfl rfl ffeq5)).tail
    (tick_step _ _ rfl rfl ffeq6)).tail
    (tick_step _ _ rfl rfl ffeq7)).tail
    (tick_step _ _ rfl rfl ffeq8)).tail
    (tick_step _ _ rfl rfl tick_fall_detect))

theorem reach_restarted :
    Reachable (initState (20:ℝ) 20 d0)
      { jstate [] 0 (p0x 6) 6 7 2000 0 with isPressing := true } := by
  have h := Step.restart (tstateOver 105.01 594) d0 d0_valid
  rw [trace_restart] at h
  exact reach_gameOver.tail h

theorem reach_evState :
    Reachable (initState (20:ℝ) 20 d0) evState := by
  have a1 := Step.touchStart (jstate [] 0 (p0x 6) 6 7 0 0) 10000
  rw [touchStart_jstate] at a1
  have a2 := Step.touchEnd _ _ 11200 jump1_press
  have a3 := tick_step _ _ rfl rfl jump1_t1
  have a4 := tick_step _ _ rfl rfl jump1_t2
  have b1 := Step.touchStart (jstate [p0x 2] 1 (mkP 1 6) 5.99168 8.21176 10000 1) 20000
  rw [touchStart_jstate] at b1
  have b2 := Step.touchEnd _ _ 21200 jump2_press
  have b3 := tick_step _ _ rfl rfl jump2_t1
  have b4 := tick_step _ _ rfl rfl jump2_t2
  have c1 := Step.touchStart (jstate [p0x (-2), mkP 1 2] 2 (mkP 2 6) 5.98336 9.42352 20000 2) 30000
  rw [touchStart_jstate] at c1
  have c2 := Step.touchEnd _ _ 31200 jump3_press
  have c3 := tick_step _ _ rfl rfl jump3_t1
  have c4 := tick_step _ _ rfl rfl jump3_t2
  have e1 := Step.touchStart (jstate [p0x (-6), mkP 1 (-2), mkP 2 2] 3 (mkP 3 6) 5.97504 10.63528 30000 3) 40000
  rw [touchStart_jstate] at e1
  have e2 := Step.touchEnd _ _ 41200 jump4_press
  have e3 := tick_step _ _ rfl rfl jump4_t1
  have e4 := tick_step _ _ rfl rfl jump4_t2
  have f1 := Step.touchStart (jstate [p0x (-10), mkP 1 (-6), mkP 2 (-2), mkP 3 2] 4 (mkP 4 6) 5.96672 11.84704 40000 4) 50000
  rw [touchStart_jstate] at f1
  have f2 := Step.touchEnd _ _ 51200 jump5_press
  have f3 := tick_step _ _ rfl rfl jump5_t1
  have f4 := tick_step _ _ rfl rfl jump5_t2
  have g1 := Step.touchStart (jstate [p0x (-14), mkP 1 (-10), mkP 2 (-6), mkP 3 (-2), mkP 4 2] 5 (mkP 5 6) 5.9584 13.0588 50000 5) 60000
  rw [touchStart_jstate] at g1
  have g2 := Step.touchEnd _ _ 61200 jump6_press
  have g3 := tick_step _ _ rfl rfl jump6_t1
  have g4 := tick_step _ _ rfl rfl jump6_t2
  have i1 := Step.touchStart (jstate [p0x (-18), mkP 1 (-14), mkP 2 (-10), mkP 3 (-6), mkP 4 (-2), mkP 5 2] 6 (mkP 6 6) 5.95008 14.27056 60000 6) 70000
  rw [touchStart_jstate] at i1
  have i2 := Step.touchEnd _ _ 71200 jump7_press
  have i3 := tick_step _ _ rfl rfl jump7_t1
  have i4 := tick_step _ _ rfl rfl jump7_t2
  exact ((((((((((((((((((((((((((((reach_S1.tail a1).tail a2).tail a3).tail
    a4).tail b1).tail b2).tail b3).tail b4).tail c1).tail c2).tail
    c3).tail c4).tail e1).tail e2).tail e3).tail e4).tail f1).tail
    f2).tail f3).tail f4).tail g1).tail g2).tail g3).tail g4).tail
    i1).tail i2).tail i3).tail i4)

theorem reach_evLaunched :
    Reachable (initState (20:ℝ) 20 d0) evLaunched := by
  have h1 := Step.touchStart evState 80000
  rw [jump8_touchStart] at h1
  have h2 := Step.touchEnd _ _ 80100 jump8_press
  exact (reach_evState.tail h1).tail h2


/-! ### Claim theorems C1 through C4, C8 through C10, and witnesses -/

/-- C1: refuted (code bug).  A concrete reachable session — seven landings,
the seventh of which evicts the window down to the six platforms of ids 3
to 8 while re-anchoring `currentPlatformId`/`targetPlatformId` to 3/4 —
followed by one more press and one legal frame update, makes the update
fault: the landing sets `currentPlatformId := 7` and `recenterWorld` then
reads `platforms[7]` of a 7-entry array, so the platform lookup yields no
existing platform and the tick cannot run to completion. -/
theorem c1_post_eviction_lookup_faults :
    Reachable (initState (20:ℝ) 20 d0) evLaunched ∧
    d0.valid evLaunched.canvasWidth evLaunched.canvasHeight ∧
    (0:ℝ) ≤ 0.033 ∧ (0.033:ℝ) ≤ 0.033 ∧
    update d0 0.033 evLaunched = none :=
  ⟨reach_evLaunched, d0_valid, by norm_num, le_refl _, crash_tick⟩

/-- C2 counterexample: a reachable state whose session is over (fall
detected) in which one more tick still changes the player's position and
velocity — physics is not frozen by the GameOver transition. -/
theorem c2_tick_after_gameover_moves_player :
    Reachable (initState (20:ℝ) 20 d0) (tstateOver 105.01 594) ∧
    (tstateOver 105.01 594).gameStarted = true ∧
    (tstateOver 105.01 594).gameOver = true ∧
    update d0 0.033 (tstateOver 105.01 594) = some (tstateOver 126.79 660) ∧
    (tstateOver 126.79 660).player.position.y ≠
      (tstateOver 105.01 594).player.position.y ∧
    (tstateOver 126.79 660).player.velocity.y ≠
      (tstateOver 105.01 594).player.velocity.y := by
  refine ⟨reach_gameOver, rfl, rfl, tick_after_over, ?_, ?_⟩ <;>
    norm_num [tstateOver, tstate]

/-- C2 (amended): physics is gated on the player's grounded flag, not on
the session state: a tick leaves a grounded player's state entirely
unchanged, and in every reachable not-yet-started state the player is
grounded (so Idle ticks are no-ops); after a fall-triggered game over the
player remains airborne and ticks keep integrating it (see the
counterexample). -/
theorem c2_physics_gated_on_grounded :
    (forall (d : GenDraws) (dt : ℝ) (s : GameState ℝ),
      s.player.onGround = true → update d dt s = some s) ∧
    (forall (W H : ℝ) (d : GenDraws) (s : GameState ℝ),
      Reachable (initState W H d) s → s.gameStarted = false →
      s.player.onGround = true) :=
  ⟨fun d dt s h => update_grounded d dt s h,
   fun W H d s hr => notStarted_grounded W H d s hr⟩

theorem c2_witness :
    update d0 0.033 (jstate [] 0 (p0x 6) 6 7 0 0) =
      some (jstate [] 0 (p0x 6) 6 7 0 0) :=
  c2_physics_gated_on_grounded.1 d0 0.033 (jstate [] 0 (p0x 6) 6 7 0 0) rfl

/-- C3 counterexample: a reachable airborne state of an active session in
which a press-release changes the player's velocity — the handlers never
check groundedness, so a press delivered while airborne is not a no-op. -/
theorem c3_airborne_press_applies_launch :
    Reachable (initState (20:ℝ) 20 d0) (tstate 9.178 66 true 2000) ∧
    (tstate 9.178 66 true 2000).gameStarted = true ∧
    (tstate 9.178 66 true 2000).gameOver = false ∧
    (tstate 9.178 66 true 2000).player.onGround = false ∧
    onTouchEnd realHyp 3200 (tstate 9.178 66 true 2000) =
      some { tstate 9.178 66 true 2000 with
        isPressing := false,
        player := ⟨⟨6, 9.178⟩, ⟨60.48, -80.64⟩, 1, "#ffdd57", false⟩ } ∧
    ({ tstate 9.178 66 true 2000 with
        isPressing := false,
        player := ⟨⟨6, 9.178⟩, ⟨60.48, -80.64⟩, 1, "#ffdd57", false⟩ } :
      GameState ℝ).player.velocity ≠
      (tstate 9.178 66 true 2000).player.velocity := by
  refine ⟨reach_T1, rfl, rfl, rfl, press_airborne, ?_⟩
  simp only [tstate, ne_eq, Vec2.mk.injEq, not_and]
  intro h
  norm_num at h

/-- C3 (amended): the input handlers guard only on the session being
active: press-start never touches the player at all; press events while the
session is inactive are no-ops; but an active-session press-release with a
press in flight applies the launch velocity and clears the grounded flag
regardless of whether the player is grounded. -/
theorem c3_press_guards_session_only :
    (forall (now : ℝ) (s : GameState ℝ), (onTouchStart now s).player = s.player) ∧
    (forall (hyp : ℝ → ℝ → ℝ) (now : ℝ) (s : GameState ℝ),
      s.gameStarted = false ∨ s.gameOver = true →
      onTouchEnd hyp now s = some s ∧ onTouchStart now s = s) ∧
    (forall (now : ℝ) (s sNew : GameState ℝ) (c t : Platform ℝ),
      s.gameStarted = true → s.gameOver = false → s.isPressing = true →
      s.platforms[s.currentPlatformId]? = some c →
      s.platforms[s.targetPlatformId]? = some t →
      onTouchEnd realHyp now s = some sNew →
      sNew.player.onGround = false ∧
      sNew.player.velocity =
        specLaunch (now - s.pressStartTime) c t s.canvasWidth) := by
  refine ⟨?_, ?_, ?_⟩
  · intro now s
    unfold onTouchStart
    split <;> rfl
  · intro hyp now s h
    rcases h with h | h <;> constructor <;> simp [onTouchEnd, onTouchStart, h]
  · intro now s sNew c t hst hov hpr hc ht h
    simp only [onTouchEnd, hst, hov, hpr, Bool.not_true, Bool.or_false,
      Bool.false_eq_true, if_false, ite_false, hc, ht, Option.some.injEq] at h
    subst h
    exact ⟨rfl, by simp only [specLaunch, realHyp]⟩

theorem c3_witness :
    onTouchEnd realHyp 5 (pageInit (20:ℝ) 20) = some (pageInit (20:ℝ) 20) ∧
    onTouchStart 5 (pageInit (20:ℝ) 20) = pageInit (20:ℝ) 20 :=
  c3_press_guards_session_only.2.1 realHyp 5 (pageInit 20 20) (Or.inl rfl)

/-- C4 counterexample: a reachable freshly restarted state (velocity zero,
grounded) carrying a press that started before the restart; releasing that
press launches the new player with the stale charge — the in-flight press
is not voided. -/
theorem c4_press_straddling_restart_launches :
    Reachable (initState (20:ℝ) 20 d0)
      { jstate [] 0 (p0x 6) 6 7 2000 0 with isPressing := true } ∧
    ({ jstate [] 0 (p0x 6) 6 7 2000 0 with isPressing := true } :
      GameState ℝ).player.velocity = ⟨0, 0⟩ ∧
    ({ jstate [] 0 (p0x 6) 6 7 2000 0 with isPressing := true } :
      GameState ℝ).player.onGround = true ∧
    onTouchEnd realHyp 3200
      { jstate [] 0 (p0x 6) 6 7 2000 0 with isPressing := true } =
      some { jstate [] 0 (p0x 6) 6 7 2000 0 with
        isPressing := false,
        player := ⟨⟨6, 7⟩, ⟨60.48, -80.64⟩, 1, "#ffdd57", false⟩ } ∧
    ({ jstate [] 0 (p0x 6) 6 7 2000 0 with
        isPressing := false,
        player := ⟨⟨6, 7⟩, ⟨60.48, -80.64⟩, 1, "#ffdd57", false⟩ } :
      GameState ℝ).player.onGround = false ∧
    ({ jstate [] 0 (p0x 6) 6 7 2000 0 with
        isPressing := false,
        player := ⟨⟨6, 7⟩, ⟨60.48, -80.64⟩, 1, "#ffdd57", false⟩ } :
      GameState ℝ).player.velocity ≠ ⟨0, 0⟩ := by
  refine ⟨reach_restarted, rfl, rfl, press_stale, rfl, ?_⟩
  simp only [ne_eq, Vec2.mk.injEq, not_and]
  intro h
  norm_num at h

/-- C4 (amended): `restartGame` resets the world but keeps the press
bookkeeping alive: the restarted player has zero velocity and is grounded,
yet `isPressing` and `pressStartTime` survive the reset, and the next
press-release on the active session applies a launch (clearing the grounded
flag) computed from the stale press-start time. -/
theorem c4_restart_does_not_void_press (d : GenDraws) (s : GameState ℝ)
    (now : ℝ) (hst : s.gameStarted = true) (hpr : s.isPressing = true) :
    (restartGame d s).player.velocity = ⟨0, 0⟩ ∧
    (restartGame d s).player.onGround = true ∧
    (restartGame d s).isPressing = true ∧
    (restartGame d s).pressStartTime = s.pressStartTime ∧
    ∃ sNew, onTouchEnd realHyp now (restartGame d s) = some sNew ∧
      sNew.player.onGround = false := by
  refine ⟨rfl, rfl, hpr, rfl, ?_⟩
  simp only [onTouchEnd, restartGame, resetWorld, hst, hpr, Bool.not_true,
    Bool.or_false, Bool.false_eq_true, if_false, ite_false, Bool.not_false,
    Bool.true_eq_false, List.getElem?_cons_zero, List.getElem?_cons_succ]
  exact ⟨_, rfl, rfl⟩

theorem c4_witness :
    ∃ sNew, onTouchEnd realHyp 3200
        (restartGame d0 { jstate [] 0 (p0x 6) 6 7 2000 0 with
          isPressing := true }) = some sNew ∧
      sNew.player.onGround = false :=
  (c4_restart_does_not_void_press d0
    { jstate [] 0 (p0x 6) 6 7 2000 0 with isPressing := true }
    3200 rfl rfl).2.2.2.2

theorem jr400a : jsRound ((400:ℝ) * 0.18) = 72 := by
  rw [jsRound_eq _ 72 (by norm_num) (by norm_num)]; norm_num

theorem jr400b : jsRound ((400:ℝ) * 0.82) = 328 := by
  rw [jsRound_eq _ 328 (by norm_num) (by norm_num)]; norm_num

theorem d5valid : d5.valid (400:ℝ) 800 := by
  unfold GenDraws.valid d5
  rw [jsRoundZ_eq ((400:ℝ) * 0.22) 88 (by norm_num) (by norm_num),
      jsRoundZ_eq ((400:ℝ) * 0.45) 180 (by norm_num) (by norm_num),
      jsRoundZ_eq ((400:ℝ) * 0.16) 64 (by norm_num) (by norm_num),
      jsRoundZ_eq ((400:ℝ) * 0.28) 112 (by norm_num) (by norm_num),
      jsRoundZ_eq ((800:ℝ) * 0.06) 48 (by norm_num) (by norm_num)]
  norm_num

theorem c5_witness :
    |(generateNextPlatform d5 400 800 prev5).position.x - prev5.position.x| ≤
        jsRound ((400:ℝ) * 0.45) ∧
    ((jsRound ((400:ℝ) * 0.18) ≤
        prev5.position.x + (d5.dxMag : ℝ) * (if d5.dxPos then 1 else -1)) →
     (prev5.position.x + (d5.dxMag : ℝ) * (if d5.dxPos then 1 else -1) ≤
        jsRound ((400:ℝ) * 0.82)) →
     jsRound ((400:ℝ) * 0.22) ≤
        |(generateNextPlatform d5 400 800 prev5).position.x -
          prev5.position.x| ∧
     |(generateNextPlatform d5 400 800 prev5).position.x -
        prev5.position.x| ≤ jsRound ((400:ℝ) * 0.45)) :=
  generate_dx_bounds 400 800 d5 prev5 (by norm_num) d5valid
    (by rw [jr400a]; norm_num [prev5]) (by rw [jr400b]; norm_num [prev5])

theorem c6_witness :
    ((initState (20:ℝ) 20 d0).platforms.map Platform.id).Pairwise (· < ·) :=
  c6_platform_ids.2.1 20 20 d0 _ Relation.ReflTransGen.refl

theorem c7_witness :
    (initState (20:ℝ) 20 d0).targetPlatformId =
      (initState (20:ℝ) 20 d0).currentPlatformId + 1 :=
  c7_window_invariant.1 20 20 d0 _ Relation.ReflTransGen.refl

theorem c8_witness :
    ({ jstate [] 0 (p0x 6) 6 7 2000 0 with
        isPressing := false,
        player := ⟨⟨6, 7⟩, ⟨60.48, -80.64⟩, 1, "#ffdd57", false⟩ } :
      GameState ℝ).player.velocity =
      specLaunch (3200 - 2000) (p0x 6) (mkP 1 10) 20 ∧
    ({ jstate [] 0 (p0x 6) 6 7 2000 0 with
        isPressing := false,
        player := ⟨⟨6, 7⟩, ⟨60.48, -80.64⟩, 1, "#ffdd57", false⟩ } :
      GameState ℝ).player.onGround = false ∧
    (1:ℝ) ≤ max 1 (Real.sqrt (((mkP 1 10).position.x - (p0x 6).position.x) ^ 2 +
      ((mkP 1 10).position.y - (p0x 6).position.y) ^ 2)) :=
  launch_matches_spec 3200
    { jstate [] 0 (p0x 6) 6 7 2000 0 with isPressing := true } _
    (p0x 6) (mkP 1 10) rfl rfl rfl rfl rfl press_stale

theorem c9_witness :
    ((tstateOver 126.79 660).player.onGround = true ↔
      specGrounded (integrate 0.033 (tstateOver 105.01 594).player)
        (mkP 1 10)) ∧
    ((tstateOver 126.79 660).gameOver = true ↔
      ((tstateOver 105.01 594).gameOver = true ∨
        specFell (integrate 0.033 (tstateOver 105.01 594).player)
          (tstateOver 105.01 594).canvasHeight)) ∧
    (¬ specGrounded (integrate 0.033 (tstateOver 105.01 594).player)
        (mkP 1 10) →
     ¬ specFell (integrate 0.033 (tstateOver 105.01 594).player)
        (tstateOver 105.01 594).canvasHeight →
     tstateOver 126.79 660 =
       { tstateOver 105.01 594 with
         player := integrate 0.033 (tstateOver 105.01 594).player }) :=
  tick_classifies_landing d0 0.033 (tstateOver 105.01 594)
    (tstateOver 126.79 660) (mkP 1 10) rfl rfl tick_after_over

theorem clamp_le_hi {K : Type} [LinearOrderedField K] {v lo hi : K}
    (h : lo ≤ hi) : clamp v lo hi ≤ hi :=
  max_le h (min_le_left _ _)

/-- C10: within the generator's band, landing and game over are mutually
exclusive in a tick: every generated platform obeys the generator's height
bound and vertical band, and for a player with the reset radius against any
platform obeying those bounds (or the initial platform's height), a
successful landing check rules out the fall condition, for all positive
viewport dimensions. -/
theorem c10_landing_excludes_gameover :
    (forall (W H : ℝ) (d : GenDraws) (prev : Platform ℝ), 0 < W → 0 < H →
      d.valid W H →
      (generateNextPlatform d W H prev).size.y ≤
        max 12 (jsRound (jsRound (W * 0.28) * 0.28)) ∧
      (generateNextPlatform d W H prev).position.y ≤ jsRound (H * 0.8)) ∧
    (forall (W H : ℝ) (p : Player ℝ) (t : Platform ℝ), 0 < W → 0 < H →
      p.radius = jsRound (W / 20) →
      (t.size.y ≤ max 12 (jsRound (jsRound (W * 0.28) * 0.28)) ∨
        t.size.y = jsRound (W * 0.06)) →
      t.position.y ≤ jsRound (H * 0.8) →
      checkLanding p t → ¬ specFell p H) := by
  constructor
  · intro W H d prev hW hH hd
    obtain ⟨-, -, -, hw2, -, -⟩ := hd
    constructor
    · show max 12 (jsRound ((d.width : ℝ) * 0.28)) ≤ _
      apply max_le (le_max_left _ _)
      apply le_max_of_le_right
      apply jsRound_mono
      have hcast : (d.width : ℝ) ≤ jsRound (W * 0.28) := by
        rw [← jsRoundZ_cast]
        exact_mod_cast hw2
      nlinarith
    · show clamp _ _ _ ≤ _
      exact clamp_le_hi (jsRound_mono (by nlinarith))
  · intro W H p t hW hH hr hh hy hl
    exact checkLanding_excludes_fall W H p t hW hH hr hh hy hl

theorem jr400c : jsRound ((400:ℝ) * 0.28) = 112 := by
  rw [jsRound_eq _ 112 (by norm_num) (by norm_num)]; norm_num

theorem jr400d : jsRound ((112:ℝ) * 0.28) = 31 := by
  rw [jsRound_eq _ 31 (by norm_num) (by norm_num)]; norm_num

theorem jr400e : jsRound ((400:ℝ) / 20) = 20 := by
  rw [jsRound_eq _ 20 (by norm_num) (by norm_num)]; norm_num

theorem jr800a : jsRound ((800:ℝ) * 0.8) = 640 := by
  rw [jsRound_eq _ 640 (by norm_num) (by norm_num)]; norm_num

theorem c10_witness :
    ¬ specFell (⟨⟨200, 540⟩, ⟨0, 10⟩, 20, "#ffdd57", false⟩ : Player ℝ) 800 :=
  c10_landing_excludes_gameover.2 400 800
    ⟨⟨200, 540⟩, ⟨0, 10⟩, 20, "#ffdd57", false⟩
    ⟨1, ⟨200, 560⟩, ⟨64, 18⟩, "#4ecca3"⟩
    (by norm_num) (by norm_num)
    (by rw [jr400e])
    (Or.inl (by rw [jr400c, jr400d]; norm_num [max_def]))
    (by rw [jr800a]; norm_num)
    (by norm_num [checkLanding])

end Jump
